import Mathlib

/-!
Shallow embedding of the visitor session tracking and aggregation engine
(`src/server.js`, routes `/api/visitors/track`, `/api/visitors/heartbeat`,
`/api/visitors/end-session`, `/api/visitors/stats`, together with the
Mongoose `Visitor` schema of `src/models/Visitor.js`), and proofs about it.

Modelling conventions:
* Timestamps are Unix milliseconds as `Nat`; each handler invocation is
  given one `now` value standing for every `new Date()` inside the handler.
* `timeSpent` is seconds, `scrollDepth` a percentage; both are `Nat`.
* JavaScript truthiness on a `Nat` is `≠ 0`, on a `String` is `≠ ""`;
  `x || d` on an optional number or string is `Option.getD` (for `Nat`,
  `some 0` and `none` both yield `0`, exactly as `0 || 0 = 0` in JS).
* Mongoose subdocuments have a fixed schema, so `{...old.toObject(), ...p}`
  followed by schema casting is field-wise "supplied value, else old value";
  payload subdocuments are records of `Option` fields.
* The Mongo collection is a `List Visitor` in insertion order; `findOne`
  is the first match, `save` of a found document replaces it in place,
  `new Visitor(...)` + `save` appends.  The `pre('save')` hook sets
  `updatedAt`.
* An arbitrary `Mixed` payload is carried as an opaque `String`.
-/

set_option linter.all false

namespace VisitorTracking

/-- One entry of the `pageViews` array of the Visitor schema. -/
structure PageView where
  url : String
  title : String
  timestamp : Nat
  timeSpent : Nat
  scrollDepth : Nat
deriving Repr, DecidableEq, Inhabited

/-- One entry of the `interactions` array of the Visitor schema. -/
structure InteractionRec where
  type : String
  element : String
  page : String
  timestamp : Nat
  data : String
deriving Repr, DecidableEq

/-- One entry of the `conversions` array of the Visitor schema. -/
structure ConversionRec where
  type : String
  page : String
  timestamp : Nat
  data : String
deriving Repr, DecidableEq

/-- The `device` subdocument of the Visitor schema, with its defaults. -/
structure Device where
  type : String := "Unknown"
  os : String := "Unknown"
  osVersion : String := "Unknown"
  browser : String := "Unknown"
  browserVersion : String := "Unknown"
  screenResolution : String := "Unknown"
  screenWidth : Option Nat := none
  screenHeight : Option Nat := none
  colorDepth : Option Nat := none
  language : String := "Unknown"
  platform : String := "Unknown"
deriving Repr, DecidableEq

/-- A `device` object supplied in a tracking payload: any subset of fields. -/
structure DevicePayload where
  type : Option String := none
  os : Option String := none
  osVersion : Option String := none
  browser : Option String := none
  browserVersion : Option String := none
  screenResolution : Option String := none
  screenWidth : Option Nat := none
  screenHeight : Option Nat := none
  colorDepth : Option Nat := none
  language : Option String := none
  platform : Option String := none
deriving Repr, DecidableEq

/-- Casting a payload `device` object into the schema (missing fields take
the schema defaults), as happens in `new Visitor({ device: device || {} })`. -/
def Device.ofPayload (p : DevicePayload) : Device where
  type := p.type.getD "Unknown"
  os := p.os.getD "Unknown"
  osVersion := p.osVersion.getD "Unknown"
  browser := p.browser.getD "Unknown"
  browserVersion := p.browserVersion.getD "Unknown"
  screenResolution := p.screenResolution.getD "Unknown"
  screenWidth := p.screenWidth
  screenHeight := p.screenHeight
  colorDepth := p.colorDepth
  language := p.language.getD "Unknown"
  platform := p.platform.getD "Unknown"

/-- `visitor.device = { ...visitor.device.toObject(), ...device }`:
fields present in the payload overwrite, absent fields keep the old value. -/
def Device.spread (old : Device) (p : DevicePayload) : Device where
  type := p.type.getD old.type
  os := p.os.getD old.os
  osVersion := p.osVersion.getD old.osVersion
  browser := p.browser.getD old.browser
  browserVersion := p.browserVersion.getD old.browserVersion
  screenResolution := p.screenResolution.getD old.screenResolution
  screenWidth := p.screenWidth.elim old.screenWidth some
  screenHeight := p.screenHeight.elim old.screenHeight some
  colorDepth := p.colorDepth.elim old.colorDepth some
  language := p.language.getD old.language
  platform := p.platform.getD old.platform

/-- The `location` subdocument of the Visitor schema, with its defaults. -/
structure Location where
  country : String := "Unknown"
  city : String := "Unknown"
  region : String := "Unknown"
  timezone : String := "Unknown"
  latitude : Option Int := none
  longitude : Option Int := none
deriving Repr, DecidableEq

/-- A `location` object supplied in a tracking payload. -/
structure LocationPayload where
  country : Option String := none
  city : Option String := none
  region : Option String := none
  timezone : Option String := none
  latitude : Option Int := none
  longitude : Option Int := none
deriving Repr, DecidableEq

/-- Schema casting of a payload `location` object at creation. -/
def Location.ofPayload (p : LocationPayload) : Location where
  country := p.country.getD "Unknown"
  city := p.city.getD "Unknown"
  region := p.region.getD "Unknown"
  timezone := p.timezone.getD "Unknown"
  latitude := p.latitude
  longitude := p.longitude

/-- `visitor.location = { ...visitor.location.toObject(), ...location }`. -/
def Location.spread (old : Location) (p : LocationPayload) : Location where
  country := p.country.getD old.country
  city := p.city.getD old.city
  region := p.region.getD old.region
  timezone := p.timezone.getD old.timezone
  latitude := p.latitude.elim old.latitude some
  longitude := p.longitude.elim old.longitude some

/-- The `trafficSource` subdocument of the Visitor schema, with defaults. -/
structure TrafficSource where
  source : String := "direct"
  medium : String := "none"
  campaign : Option String := none
  referrer : Option String := none
  utmSource : Option String := none
  utmMedium : Option String := none
  utmCampaign : Option String := none
  utmContent : Option String := none
  utmTerm : Option String := none
deriving Repr, DecidableEq

/-- A `trafficSource` object supplied in a tracking payload. -/
structure TrafficSourcePayload where
  source : Option String := none
  medium : Option String := none
  campaign : Option String := none
  referrer : Option String := none
  utmSource : Option String := none
  utmMedium : Option String := none
  utmCampaign : Option String := none
  utmContent : Option String := none
  utmTerm : Option String := none
deriving Repr, DecidableEq

/-- Schema casting of a payload `trafficSource` object at creation. -/
def TrafficSource.ofPayload (p : TrafficSourcePayload) : TrafficSource where
  source := p.source.getD "direct"
  medium := p.medium.getD "none"
  campaign := p.campaign
  referrer := p.referrer
  utmSource := p.utmSource
  utmMedium := p.utmMedium
  utmCampaign := p.utmCampaign
  utmContent := p.utmContent
  utmTerm := p.utmTerm

/-- The `identificationData` subdocument of the Visitor schema. -/
structure IdentificationData where
  name : Option String := none
  email : Option String := none
  phone : Option String := none
  company : Option String := none
  jobTitle : Option String := none
deriving Repr, DecidableEq

/-- `identificationData` fields supplied in a tracking payload. -/
structure IdentificationPayload where
  name : Option String := none
  email : Option String := none
  phone : Option String := none
  company : Option String := none
  jobTitle : Option String := none
deriving Repr, DecidableEq

/-- `{ ...visitor.identificationData.toObject(), ...identificationData }`. -/
def IdentificationData.spread (old : IdentificationData)
    (p : IdentificationPayload) : IdentificationData where
  name := p.name.elim old.name some
  email := p.email.elim old.email some
  phone := p.phone.elim old.phone some
  company := p.company.elim old.company some
  jobTitle := p.jobTitle.elim old.jobTitle some

/-- One document of the `Visitor` collection (`src/models/Visitor.js`). -/
structure Visitor where
  sessionId : String
  visitorId : String
  ipAddress : String := "Unknown"
  location : Location := {}
  device : Device := {}
  trafficSource : TrafficSource := {}
  pageViews : List PageView := []
  interactions : List InteractionRec := []
  sessionStart : Nat
  sessionEnd : Option Nat := none
  totalTimeOnSite : Nat := 0
  totalPageViews : Nat := 0
  maxScrollDepth : Nat := 0
  entryPage : String := ""
  exitPage : String := ""
  conversions : List ConversionRec := []
  identified : Bool := false
  identificationData : IdentificationData := {}
  isActive : Bool := true
  isBot : Bool := false
  visitorType : String := "new"
  visitCount : Nat := 1
  firstVisit : Nat
  lastVisit : Nat
  createdAt : Nat
  updatedAt : Nat
deriving Repr, DecidableEq

/-- A `pageView` object of a tracking payload. -/
structure PageViewPayload where
  url : String
  title : Option String := none
  timeSpent : Option Nat := none
  scrollDepth : Option Nat := none
deriving Repr, DecidableEq

/-- An `interaction` object of a tracking payload. -/
structure InteractionPayload where
  type : String
  element : String
  page : String
  data : String
deriving Repr, DecidableEq

/-- A `conversion` object of a tracking payload. -/
structure ConversionPayload where
  type : String
  page : String
  data : String
deriving Repr, DecidableEq

/-- The request body of `POST /api/visitors/track`.  Absent identifiers are
modelled as `""` (JS string falsiness). -/
structure TrackPayload where
  sessionId : String
  visitorId : String
  device : Option DevicePayload := none
  trafficSource : Option TrafficSourcePayload := none
  pageView : Option PageViewPayload := none
  interaction : Option InteractionPayload := none
  conversion : Option ConversionPayload := none
  location : Option LocationPayload := none
  identificationData : Option IdentificationPayload := none
  isBot : Option Bool := none
deriving Repr, DecidableEq

/-- The request body of `POST /api/visitors/heartbeat`. -/
structure HeartbeatPayload where
  sessionId : String
  timeSpent : Option Nat := none
  scrollDepth : Option Nat := none
  currentPage : Option String := none
deriving Repr, DecidableEq

/-- The request body of `POST /api/visitors/end-session`. -/
structure EndSessionPayload where
  sessionId : String
  timeSpent : Option Nat := none
  scrollDepth : Option Nat := none
deriving Repr, DecidableEq

/-! ### Session store primitives -/

/-- `Visitor.findOne({ sessionId })`: first document with that session id. -/
def findSession (store : List Visitor) (sid : String) : Option Visitor :=
  store.find? (fun v => v.sessionId == sid)

/-- `save()` on a document obtained from `findOne({ sessionId })`: replace
the first document whose `sessionId` matches. -/
def replaceFirst (store : List Visitor) (sid : String) (w : Visitor) :
    List Visitor :=
  match store with
  | [] => []
  | v :: rest =>
      if v.sessionId == sid then w :: rest
      else v :: replaceFirst rest sid w

/-- `Visitor.findOne({ visitorId }).sort({ createdAt: -1 })`: among the
documents with that visitor id, one with maximal `createdAt` (the earliest
inserted among ties). -/
def latestByVisitorId (store : List Visitor) (vid : String) : Option Visitor :=
  (store.filter (fun v => v.visitorId == vid)).foldl
    (fun acc v =>
      match acc with
      | none => some v
      | some b => if v.createdAt > b.createdAt then some v else some b)
    none

/-! ### The `track` handler (`POST /api/visitors/track`) -/

/-- The record built by the new-session branch of `track`
(`new Visitor({...})` at src/server.js:2349, including the entry-page /
first-page-view block that follows it).  Note that this branch never
touches `maxScrollDepth`, `interactions` and `conversions` stay empty, and
the first page-view entry gets `timeSpent: 0`. -/
def newVisitorRecord (now : Nat) (p : TrackPayload) (ip : String)
    (existing : Option Visitor) : Visitor :=
  let base : Visitor :=
    { sessionId := p.sessionId
      visitorId := p.visitorId
      ipAddress := ip
      visitorType := if existing.isSome then "returning" else "new"
      visitCount := match existing with
        | some e => e.visitCount + 1
        | none => 1
      firstVisit := match existing with
        | some e => e.firstVisit
        | none => now
      device := Device.ofPayload (p.device.getD {})
      trafficSource := TrafficSource.ofPayload (p.trafficSource.getD {})
      location := Location.ofPayload (p.location.getD {})
      isBot := p.isBot.getD false
      pageViews := []
      interactions := []
      conversions := []
      sessionStart := now
      lastVisit := now
      createdAt := now
      updatedAt := now }
  match p.pageView with
  | some pv =>
      { base with
          entryPage := pv.url
          pageViews := [{ url := pv.url
                          title := pv.title.getD ""
                          timestamp := now
                          timeSpent := 0
                          scrollDepth := pv.scrollDepth.getD 0 }]
          totalPageViews := 1 }
  | none => base

/-- `if (device) visitor.device = { ...visitor.device.toObject(), ...device }`. -/
def applyDevice (o : Option DevicePayload) (v : Visitor) : Visitor :=
  match o with
  | some d => { v with device := v.device.spread d }
  | none => v

/-- `if (location) visitor.location = { ... }`. -/
def applyLocation (o : Option LocationPayload) (v : Visitor) : Visitor :=
  match o with
  | some l => { v with location := v.location.spread l }
  | none => v

/-- The page-view merge predicate of the existing-session branch:
same URL and entry timestamp within 5 minutes of the incoming call
(src/server.js:2395-2398). -/
def recentSameUrl (now : Nat) (url : String) (e : PageView) : Bool :=
  e.url == url && decide (now - e.timestamp < 5 * 60 * 1000)

/-- `if (pageView.scrollDepth && pageView.scrollDepth > visitor.maxScrollDepth)
visitor.maxScrollDepth = pageView.scrollDepth` — the guarded max update used
by all three handlers. -/
def bumpMax (m : Nat) (o : Option Nat) : Nat :=
  match o with
  | some s => if s ≠ 0 ∧ s > m then s else m
  | none => m

/-- The `if (pageView) { ... }` block of the existing-session branch of
`track` (src/server.js:2393-2422): merge into a recent same-URL entry or
append, set `exitPage`, bump `maxScrollDepth`. -/
def applyPageViewTrack (now : Nat) (o : Option PageViewPayload)
    (v : Visitor) : Visitor :=
  match o with
  | none => v
  | some pv =>
      let v1 :=
        match v.pageViews.findIdx? (recentSameUrl now pv.url) with
        | some i =>
            let merged := v.pageViews.modify
              (fun (e : PageView) => { e with
                  timeSpent := pv.timeSpent.getD 0
                  scrollDepth := pv.scrollDepth.getD 0 }) i
            { v with pageViews := merged }
        | none =>
            let newEntry : PageView :=
              { url := pv.url
                title := pv.title.getD ""
                timestamp := now
                timeSpent := pv.timeSpent.getD 0
                scrollDepth := pv.scrollDepth.getD 0 }
            let newViews := v.pageViews ++ [newEntry]
            { v with pageViews := newViews, totalPageViews := newViews.length }
      let v2 := { v1 with exitPage := pv.url }
      { v2 with maxScrollDepth := bumpMax v2.maxScrollDepth pv.scrollDepth }

/-- `if (interaction) visitor.interactions.push({...})`. -/
def applyInteraction (now : Nat) (o : Option InteractionPayload)
    (v : Visitor) : Visitor :=
  match o with
  | some it =>
      { v with interactions := v.interactions ++
          [{ type := it.type, element := it.element, page := it.page
             timestamp := now, data := it.data }] }
  | none => v

/-- `if (conversion) visitor.conversions.push({...})`. -/
def applyConversion (now : Nat) (o : Option ConversionPayload)
    (v : Visitor) : Visitor :=
  match o with
  | some c =>
      { v with conversions := v.conversions ++
          [{ type := c.type, page := c.page, timestamp := now
             data := c.data }] }
  | none => v

/-- `if (identificationData) { visitor.identified = true; ...spread... }`. -/
def applyIdentification (o : Option IdentificationPayload)
    (v : Visitor) : Visitor :=
  match o with
  | some idd =>
      { v with identified := true
               identificationData := v.identificationData.spread idd }
  | none => v

/-- The whole existing-session branch of `track`
(src/server.js:2377-2457): `lastVisit`, `isActive`, device/location
overwrite, page-view merge rule, interaction/conversion append,
identification merge, `totalTimeOnSite` recompute.  `trafficSource` is
not touched by this branch. -/
def trackExisting (now : Nat) (p : TrackPayload) (v : Visitor) : Visitor :=
  let v1 := { v with lastVisit := now, isActive := true }
  let v2 := applyDevice p.device v1
  let v3 := applyLocation p.location v2
  let v4 := applyPageViewTrack now p.pageView v3
  let v5 := applyInteraction now p.interaction v4
  let v6 := applyConversion now p.conversion v5
  let v7 := applyIdentification p.identificationData v6
  { v7 with totalTimeOnSite := (now - v7.sessionStart) / 1000 }

/-- The `pre('save')` hook of the Visitor schema: `updatedAt = new Date()`. -/
def presave (now : Nat) (v : Visitor) : Visitor :=
  { v with updatedAt := now }

/-- `POST /api/visitors/track` (src/server.js:2311-2475).  Returns the
store after the call and whether the response was a success (a `400`
validation rejection is `false`). -/
def track (store : List Visitor) (now : Nat) (p : TrackPayload)
    (ip : String) : List Visitor × Bool :=
  if p.sessionId == "" || p.visitorId == "" then (store, false)
  else
    match findSession store p.sessionId with
    | none =>
        let existing := latestByVisitorId store p.visitorId
        (store ++ [presave now (newVisitorRecord now p ip existing)], true)
    | some v =>
        (replaceFirst store p.sessionId (presave now (trackExisting now p v)),
         true)

/-! ### The `heartbeat` handler (`POST /api/visitors/heartbeat`) -/

/-- The in-place page update of `heartbeat` (src/server.js:2503-2512):
if `currentPage` is truthy and some entry has that URL, the **first** such
entry gets `timeSpent || 0` and `scrollDepth || 0`. -/
def applyHeartbeatPage (p : HeartbeatPayload) (v : Visitor) : Visitor :=
  let truthyPage := match p.currentPage with
    | some cp => cp ≠ ""
    | none => false
  if truthyPage && decide (v.pageViews.length > 0) then
    match v.pageViews.findIdx?
        (fun pv => pv.url == (p.currentPage.getD "")) with
    | some i =>
        let updated := v.pageViews.modify
          (fun (e : PageView) => { e with
              timeSpent := p.timeSpent.getD 0
              scrollDepth := p.scrollDepth.getD 0 }) i
        { v with pageViews := updated }
    | none => v
  else v

/-- The body of `heartbeat` applied to a found session
(src/server.js:2494-2514). -/
def heartbeatUpdate (now : Nat) (p : HeartbeatPayload) (v : Visitor) :
    Visitor :=
  let v1 := { v with isActive := true, lastVisit := now
                     totalTimeOnSite := (now - v.sessionStart) / 1000 }
  let v2 := { v1 with maxScrollDepth := bumpMax v1.maxScrollDepth p.scrollDepth }
  applyHeartbeatPage p v2

/-- `POST /api/visitors/heartbeat` (src/server.js:2481-2526).  Unknown
sessions are a successful no-op. -/
def heartbeat (store : List Visitor) (now : Nat) (p : HeartbeatPayload) :
    List Visitor × Bool :=
  if p.sessionId == "" then (store, false)
  else
    match findSession store p.sessionId with
    | none => (store, true)
    | some v =>
        (replaceFirst store p.sessionId (presave now (heartbeatUpdate now p v)),
         true)

/-! ### The `end-session` handler (`POST /api/visitors/end-session`) -/

/-- The body of `end-session` applied to a found session
(src/server.js:2545-2554): unconditionally sets `isActive = false` and
`sessionEnd = now`, recomputes `totalTimeOnSite`, bumps `maxScrollDepth`. -/
def endSessionUpdate (now : Nat) (p : EndSessionPayload) (v : Visitor) :
    Visitor :=
  let v1 := { v with isActive := false, sessionEnd := some now
                     totalTimeOnSite := (now - v.sessionStart) / 1000 }
  { v1 with maxScrollDepth := bumpMax v1.maxScrollDepth p.scrollDepth }

/-- `POST /api/visitors/end-session` (src/server.js:2532-2566).  Unknown
sessions are a successful no-op. -/
def endSession (store : List Visitor) (now : Nat) (p : EndSessionPayload) :
    List Visitor × Bool :=
  if p.sessionId == "" then (store, false)
  else
    match findSession store p.sessionId with
    | none => (store, true)
    | some v =>
        (replaceFirst store p.sessionId
          (presave now (endSessionUpdate now p v)), true)

/-! ### Operation sequences -/

/-- One inbound call to the tracking engine. -/
inductive Op where
  | track (now : Nat) (p : TrackPayload) (ip : String)
  | heartbeat (now : Nat) (p : HeartbeatPayload)
  | endSession (now : Nat) (p : EndSessionPayload)
deriving Repr, DecidableEq

/-- The store after one call. -/
def applyOp (store : List Visitor) : Op → List Visitor
  | .track now p ip => (track store now p ip).1
  | .heartbeat now p => (heartbeat store now p).1
  | .endSession now p => (endSession store now p).1

/-- The store after a sequence of calls. -/
def runOps (store : List Visitor) (ops : List Op) : List Visitor :=
  ops.foldl applyOp store

/-! ### Aggregation (`GET /api/visitors/stats`) -/

/-- Round a rational to the nearest integer, ties to even — the rounding
direction IEEE 754 prescribes for every inexact arithmetic result in the
default mode. -/
def roundNearestEven (x : ℚ) : Int :=
  let f := ⌊x⌋
  let r := x - (f : ℚ)
  if r < 1/2 then f
  else if r > 1/2 then f + 1
  else if f % 2 = 0 then f else f + 1

/-- The binary64 neighbour of a positive rational: with
`e = ⌊log₂ q⌋`, the 53-bit significand is `q · 2^(52-e)` rounded to
nearest-even, scaled back by `2^(e-52)`.  (If rounding carries the
significand up to `2^53` the result is exactly `2^(e+1)`, which is again
the correctly rounded double.) -/
def fl64pos (q : ℚ) : ℚ :=
  (roundNearestEven (q * (2 : ℚ) ^ ((52 : ℤ) - Int.log 2 q)) : ℚ) *
    (2 : ℚ) ^ (Int.log 2 q - 52)

/-- Rounding a rational to the nearest IEEE-754 binary64 value
(round-to-nearest, ties-to-even), as every JavaScript arithmetic
operation does to its exact result.  Overflow and subnormals are not
modelled: the function is exact on `0` and on the normal range
`[2^-1022, 2^1024)`, which contains every value the bounce-rate
computation can produce. -/
def fl64 (q : ℚ) : ℚ :=
  if q = 0 then 0
  else if 0 < q then fl64pos q
  else - fl64pos (-q)

/-- The bounce-rate computation of `/api/visitors/stats`
(src/server.js:2730-2731): `singlePageSessions` counts the filtered,
non-bot sessions with `totalPageViews == 1`, `totalVisitors` counts all
filtered non-bot sessions, and the rate is
`Math.round(singlePageSessions / totalVisitors * 100)` when the total is
positive, else `0`.  The date filter is an arbitrary predicate `f`.

JavaScript evaluates the expression in binary64: the two counts convert
exactly (they are integers below `2^53`), the division is correctly
rounded (`fl64` of the exact quotient), the multiplication by the exactly
representable `100` is correctly rounded again, and `Math.round` is
specified exactly on the resulting double — the closest integer, ties
toward `+∞`, which is `⌊x + 1/2⌋` of the double's exact value, Mathlib's
`round`. -/
def bounceRate (store : List Visitor) (f : Visitor → Bool) : Int :=
  let totalVisitors := (store.filter (fun v => f v && !v.isBot)).length
  let singlePageSessions :=
    (store.filter
      (fun v => f v && !v.isBot && v.totalPageViews == 1)).length
  if totalVisitors > 0 then
    round (fl64 (fl64 ((singlePageSessions : ℚ) / (totalVisitors : ℚ)) * 100))
  else 0

/-! ### Basic lemmas about the store primitives -/

theorem findSession_some_sessionId {store : List Visitor} {sid : String}
    {v : Visitor} (h : findSession store sid = some v) : v.sessionId = sid := by
  have := List.find?_some h
  exact beq_iff_eq.mp this

theorem findSession_append {store : List Visitor} {w : Visitor}
    {sid : String} :
    findSession (store ++ [w]) sid =
      (findSession store sid).or
        (if w.sessionId == sid then some w else none) := by
  simp only [findSession, List.find?_append, List.find?]
  rcases h : w.sessionId == sid <;> simp [h]

theorem replaceFirst_of_none {store : List Visitor} {sid : String}
    {w : Visitor} (h : findSession store sid = none) :
    replaceFirst store sid w = store := by
  induction store with
  | nil => rfl
  | cons v rest ih =>
      simp only [findSession, List.find?] at h
      rcases hv : v.sessionId == sid with _ | _
      · simp only [replaceFirst, hv, Bool.false_eq_true, if_false,
          List.cons.injEq, true_and]
        exact ih (by simpa [findSession, hv] using h)
      · simp [hv] at h

theorem findSession_replaceFirst_self {store : List Visitor} {sid : String}
    {v w : Visitor} (hfound : findSession store sid = some v)
    (hw : w.sessionId = sid) :
    findSession (replaceFirst store sid w) sid = some w := by
  induction store with
  | nil => simp [findSession] at hfound
  | cons u rest ih =>
      rcases hu : u.sessionId == sid with _ | _
      · simp only [findSession, List.find?, hu] at hfound
        simp only [replaceFirst, hu, Bool.false_eq_true, if_false]
        simp only [findSession, List.find?, hu]
        exact ih hfound
      · simp only [replaceFirst, hu, if_true]
        simp [findSession, List.find?, hw]

theorem findSession_replaceFirst_ne {store : List Visitor}
    {sid tid : String} {w : Visitor} (hne : tid ≠ sid)
    (hw : w.sessionId = tid) :
    findSession (replaceFirst store tid w) sid = findSession store sid := by
  induction store with
  | nil => rfl
  | cons u rest ih =>
      rcases hu : u.sessionId == tid with _ | _
      · simp only [replaceFirst, hu, Bool.false_eq_true, if_false]
        simp only [findSession, List.find?]
        rcases hus : u.sessionId == sid with _ | _
        · simpa [hus] using ih
        · simp [hus]
      · have huid : u.sessionId = tid := beq_iff_eq.mp hu
        simp only [replaceFirst, hu, if_true]
        simp only [findSession, List.find?]
        have h1 : (w.sessionId == sid) = false := by
          simp [hw, hne]
        have h2 : (u.sessionId == sid) = false := by
          simp [huid, hne]
        simp [h1, h2]

/-- The guarded scroll-depth update equals a plain `max` with the supplied
value (absent and `0` both contribute nothing). -/
theorem bumpMax_eq_max (m : Nat) (o : Option Nat) :
    bumpMax m o = max m (o.getD 0) := by
  match o with
  | none => simp [bumpMax]
  | some s =>
      simp only [bumpMax, Option.getD_some]
      rcases Nat.eq_zero_or_pos s with hs | hs
      · subst hs; simp
      · by_cases hgt : s > m
        · rw [if_pos ⟨by omega, hgt⟩, Nat.max_eq_right (by omega)]
        · rw [if_neg (by omega), Nat.max_eq_left (by omega)]

/-! ### Frame lemmas: which fields each update step leaves alone -/

theorem applyDevice_frame (o : Option DevicePayload) (v : Visitor) :
    (applyDevice o v).pageViews = v.pageViews ∧
    (applyDevice o v).totalPageViews = v.totalPageViews ∧
    (applyDevice o v).maxScrollDepth = v.maxScrollDepth ∧
    (applyDevice o v).sessionId = v.sessionId ∧
    (applyDevice o v).visitCount = v.visitCount ∧
    (applyDevice o v).visitorType = v.visitorType ∧
    (applyDevice o v).firstVisit = v.firstVisit ∧
    (applyDevice o v).sessionStart = v.sessionStart ∧
    (applyDevice o v).trafficSource = v.trafficSource ∧
    (applyDevice o v).location = v.location ∧
    (applyDevice o v).interactions = v.interactions ∧
    (applyDevice o v).conversions = v.conversions := by
  cases o <;> exact ⟨rfl, rfl, rfl, rfl, rfl, rfl, rfl, rfl, rfl, rfl, rfl, rfl⟩

theorem applyLocation_frame (o : Option LocationPayload) (v : Visitor) :
    (applyLocation o v).pageViews = v.pageViews ∧
    (applyLocation o v).totalPageViews = v.totalPageViews ∧
    (applyLocation o v).maxScrollDepth = v.maxScrollDepth ∧
    (applyLocation o v).sessionId = v.sessionId ∧
    (applyLocation o v).visitCount = v.visitCount ∧
    (applyLocation o v).visitorType = v.visitorType ∧
    (applyLocation o v).firstVisit = v.firstVisit ∧
    (applyLocation o v).sessionStart = v.sessionStart ∧
    (applyLocation o v).trafficSource = v.trafficSource ∧
    (applyLocation o v).device = v.device ∧
    (applyLocation o v).interactions = v.interactions ∧
    (applyLocation o v).conversions = v.conversions := by
  cases o <;> exact ⟨rfl, rfl, rfl, rfl, rfl, rfl, rfl, rfl, rfl, rfl, rfl, rfl⟩

theorem applyPageViewTrack_frame (now : Nat) (o : Option PageViewPayload)
    (v : Visitor) :
    (applyPageViewTrack now o v).sessionId = v.sessionId ∧
    (applyPageViewTrack now o v).visitCount = v.visitCount ∧
    (applyPageViewTrack now o v).visitorType = v.visitorType ∧
    (applyPageViewTrack now o v).firstVisit = v.firstVisit ∧
    (applyPageViewTrack now o v).sessionStart = v.sessionStart ∧
    (applyPageViewTrack now o v).trafficSource = v.trafficSource ∧
    (applyPageViewTrack now o v).device = v.device ∧
    (applyPageViewTrack now o v).location = v.location ∧
    (applyPageViewTrack now o v).interactions = v.interactions ∧
    (applyPageViewTrack now o v).conversions = v.conversions := by
  match o with
  | none => exact ⟨rfl, rfl, rfl, rfl, rfl, rfl, rfl, rfl, rfl, rfl⟩
  | some pv =>
      simp only [applyPageViewTrack]
      rcases h : v.pageViews.findIdx? (recentSameUrl now pv.url) with _ | i <;>
        exact ⟨rfl, rfl, rfl, rfl, rfl, rfl, rfl, rfl, rfl, rfl⟩

theorem applyPageViewTrack_maxScrollDepth (now : Nat)
    (o : Option PageViewPayload) (v : Visitor) :
    (applyPageViewTrack now o v).maxScrollDepth =
      bumpMax v.maxScrollDepth (o.bind PageViewPayload.scrollDepth) := by
  match o with
  | none => rfl
  | some pv =>
      simp only [applyPageViewTrack, Option.bind_some]
      rcases h : v.pageViews.findIdx? (recentSameUrl now pv.url) with _ | i <;>
        rfl

theorem applyInteraction_frame (now : Nat) (o : Option InteractionPayload)
    (v : Visitor) :
    (applyInteraction now o v).pageViews = v.pageViews ∧
    (applyInteraction now o v).totalPageViews = v.totalPageViews ∧
    (applyInteraction now o v).maxScrollDepth = v.maxScrollDepth ∧
    (applyInteraction now o v).sessionId = v.sessionId ∧
    (applyInteraction now o v).visitCount = v.visitCount ∧
    (applyInteraction now o v).visitorType = v.visitorType ∧
    (applyInteraction now o v).firstVisit = v.firstVisit ∧
    (applyInteraction now o v).sessionStart = v.sessionStart ∧
    (applyInteraction now o v).trafficSource = v.trafficSource ∧
    (applyInteraction now o v).device = v.device ∧
    (applyInteraction now o v).location = v.location ∧
    (applyInteraction now o v).conversions = v.conversions := by
  cases o <;> exact ⟨rfl, rfl, rfl, rfl, rfl, rfl, rfl, rfl, rfl, rfl, rfl, rfl⟩

theorem applyConversion_frame (now : Nat) (o : Option ConversionPayload)
    (v : Visitor) :
    (applyConversion now o v).pageViews = v.pageViews ∧
    (applyConversion now o v).totalPageViews = v.totalPageViews ∧
    (applyConversion now o v).maxScrollDepth = v.maxScrollDepth ∧
    (applyConversion now o v).sessionId = v.sessionId ∧
    (applyConversion now o v).visitCount = v.visitCount ∧
    (applyConversion now o v).visitorType = v.visitorType ∧
    (applyConversion now o v).firstVisit = v.firstVisit ∧
    (applyConversion now o v).sessionStart = v.sessionStart ∧
    (applyConversion now o v).trafficSource = v.trafficSource ∧
    (applyConversion now o v).device = v.device ∧
    (applyConversion now o v).location = v.location ∧
    (applyConversion now o v).interactions = v.interactions := by
  cases o <;> exact ⟨rfl, rfl, rfl, rfl, rfl, rfl, rfl, rfl, rfl, rfl, rfl, rfl⟩

theorem applyIdentification_frame (o : Option IdentificationPayload)
    (v : Visitor) :
    (applyIdentification o v).pageViews = v.pageViews ∧
    (applyIdentification o v).totalPageViews = v.totalPageViews ∧
    (applyIdentification o v).maxScrollDepth = v.maxScrollDepth ∧
    (applyIdentification o v).sessionId = v.sessionId ∧
    (applyIdentification o v).visitCount = v.visitCount ∧
    (applyIdentification o v).visitorType = v.visitorType ∧
    (applyIdentification o v).firstVisit = v.firstVisit ∧
    (applyIdentification o v).sessionStart = v.sessionStart ∧
    (applyIdentification o v).trafficSource = v.trafficSource ∧
    (applyIdentification o v).device = v.device ∧
    (applyIdentification o v).location = v.location ∧
    (applyIdentification o v).interactions = v.interactions ∧
    (applyIdentification o v).conversions = v.conversions := by
  cases o <;>
    exact ⟨rfl, rfl, rfl, rfl, rfl, rfl, rfl, rfl, rfl, rfl, rfl, rfl, rfl⟩

theorem trackExisting_sessionId (now : Nat) (p : TrackPayload) (v : Visitor) :
    (trackExisting now p v).sessionId = v.sessionId := by
  simp only [trackExisting]
  rw [(applyIdentification_frame _ _).2.2.2.1,
      (applyConversion_frame _ _ _).2.2.2.1,
      (applyInteraction_frame _ _ _).2.2.2.1,
      (applyPageViewTrack_frame _ _ _).1,
      (applyLocation_frame _ _).2.2.2.1,
      (applyDevice_frame _ _).2.2.2.1]

theorem trackExisting_identity (now : Nat) (p : TrackPayload) (v : Visitor) :
    (trackExisting now p v).visitCount = v.visitCount ∧
    (trackExisting now p v).visitorType = v.visitorType ∧
    (trackExisting now p v).firstVisit = v.firstVisit := by
  refine ⟨?_, ?_, ?_⟩ <;> simp only [trackExisting]
  · rw [(applyIdentification_frame _ _).2.2.2.2.1,
        (applyConversion_frame _ _ _).2.2.2.2.1,
        (applyInteraction_frame _ _ _).2.2.2.2.1,
        (applyPageViewTrack_frame _ _ _).2.1,
        (applyLocation_frame _ _).2.2.2.2.1,
        (applyDevice_frame _ _).2.2.2.2.1]
  · rw [(applyIdentification_frame _ _).2.2.2.2.2.1,
        (applyConversion_frame _ _ _).2.2.2.2.2.1,
        (applyInteraction_frame _ _ _).2.2.2.2.2.1,
        (applyPageViewTrack_frame _ _ _).2.2.1,
        (applyLocation_frame _ _).2.2.2.2.2.1,
        (applyDevice_frame _ _).2.2.2.2.2.1]
  · rw [(applyIdentification_frame _ _).2.2.2.2.2.2.1,
        (applyConversion_frame _ _ _).2.2.2.2.2.2.1,
        (applyInteraction_frame _ _ _).2.2.2.2.2.2.1,
        (applyPageViewTrack_frame _ _ _).2.2.2.1,
        (applyLocation_frame _ _).2.2.2.2.2.2.1,
        (applyDevice_frame _ _).2.2.2.2.2.2.1]

theorem trackExisting_maxScrollDepth (now : Nat) (p : TrackPayload)
    (v : Visitor) :
    (trackExisting now p v).maxScrollDepth =
      bumpMax v.maxScrollDepth (p.pageView.bind PageViewPayload.scrollDepth) := by
  simp only [trackExisting]
  rw [(applyIdentification_frame _ _).2.2.1,
      (applyConversion_frame _ _ _).2.2.1,
      (applyInteraction_frame _ _ _).2.2.1,
      applyPageViewTrack_maxScrollDepth,
      (applyLocation_frame _ _).2.2.1,
      (applyDevice_frame _ _).2.2.1]

theorem newVisitorRecord_base (now : Nat) (p : TrackPayload) (ip : String)
    (existing : Option Visitor) :
    (newVisitorRecord now p ip existing).sessionId = p.sessionId ∧
    (newVisitorRecord now p ip existing).maxScrollDepth = 0 ∧
    (newVisitorRecord now p ip existing).interactions = [] ∧
    (newVisitorRecord now p ip existing).conversions = [] := by
  simp only [newVisitorRecord]
  cases p.pageView <;> exact ⟨rfl, rfl, rfl, rfl⟩

theorem heartbeatUpdate_sessionId (now : Nat) (p : HeartbeatPayload)
    (v : Visitor) : (heartbeatUpdate now p v).sessionId = v.sessionId := by
  simp only [heartbeatUpdate, applyHeartbeatPage]
  rcases h : (match p.currentPage with
      | some cp => decide (cp ≠ "")
      | none => false) && decide (v.pageViews.length > 0) with _ | _
  · simp [h]
  · simp only [h, if_true]
    rcases h2 : v.pageViews.findIdx?
        (fun pv => pv.url == (p.currentPage.getD "")) with _ | i <;>
      simp only [h2]

theorem heartbeatUpdate_maxScrollDepth (now : Nat) (p : HeartbeatPayload)
    (v : Visitor) :
    (heartbeatUpdate now p v).maxScrollDepth =
      bumpMax v.maxScrollDepth p.scrollDepth := by
  simp only [heartbeatUpdate, applyHeartbeatPage]
  rcases h : (match p.currentPage with
      | some cp => decide (cp ≠ "")
      | none => false) && decide (v.pageViews.length > 0) with _ | _
  · simp [h]
  · simp only [h, if_true]
    rcases h2 : v.pageViews.findIdx?
        (fun pv => pv.url == (p.currentPage.getD "")) with _ | i <;>
      simp only [h2]

theorem heartbeatUpdate_identity (now : Nat) (p : HeartbeatPayload)
    (v : Visitor) :
    (heartbeatUpdate now p v).visitCount = v.visitCount ∧
    (heartbeatUpdate now p v).visitorType = v.visitorType ∧
    (heartbeatUpdate now p v).firstVisit = v.firstVisit := by
  simp only [heartbeatUpdate, applyHeartbeatPage]
  rcases h : (match p.currentPage with
      | some cp => decide (cp ≠ "")
      | none => false) && decide (v.pageViews.length > 0) with _ | _
  · simp [h]
  · simp only [h, if_true]
    rcases h2 : v.pageViews.findIdx?
        (fun pv => pv.url == (p.currentPage.getD "")) with _ | i <;>
      simp [h2]

theorem endSessionUpdate_fields (now : Nat) (p : EndSessionPayload)
    (v : Visitor) :
    (endSessionUpdate now p v).sessionId = v.sessionId ∧
    (endSessionUpdate now p v).sessionEnd = some now ∧
    (endSessionUpdate now p v).isActive = false ∧
    (endSessionUpdate now p v).totalTimeOnSite = (now - v.sessionStart) / 1000 ∧
    (endSessionUpdate now p v).maxScrollDepth =
      bumpMax v.maxScrollDepth p.scrollDepth ∧
    (endSessionUpdate now p v).visitCount = v.visitCount ∧
    (endSessionUpdate now p v).visitorType = v.visitorType ∧
    (endSessionUpdate now p v).firstVisit = v.firstVisit := by
  exact ⟨rfl, rfl, rfl, rfl, rfl, rfl, rfl, rfl⟩

theorem presave_frame (now : Nat) (v : Visitor) :
    (presave now v).sessionId = v.sessionId ∧
    (presave now v).maxScrollDepth = v.maxScrollDepth ∧
    (presave now v).pageViews = v.pageViews ∧
    (presave now v).totalPageViews = v.totalPageViews ∧
    (presave now v).visitCount = v.visitCount ∧
    (presave now v).visitorType = v.visitorType ∧
    (presave now v).firstVisit = v.firstVisit ∧
    (presave now v).interactions = v.interactions ∧
    (presave now v).conversions = v.conversions ∧
    (presave now v).sessionEnd = v.sessionEnd ∧
    (presave now v).isActive = v.isActive ∧
    (presave now v).totalTimeOnSite = v.totalTimeOnSite ∧
    (presave now v).trafficSource = v.trafficSource ∧
    (presave now v).device = v.device ∧
    (presave now v).location = v.location := by
  exact ⟨rfl, rfl, rfl, rfl, rfl, rfl, rfl, rfl, rfl, rfl, rfl, rfl, rfl, rfl,
    rfl⟩

/-! ### Characterising the page-view handling -/

theorem applyPageViewTrack_merge (now : Nat) (pv : PageViewPayload)
    (v : Visitor) (i : Nat)
    (hfind : v.pageViews.findIdx? (recentSameUrl now pv.url) = some i) :
    (applyPageViewTrack now (some pv) v).pageViews =
      v.pageViews.modify
        (fun (e : PageView) => { e with
            timeSpent := pv.timeSpent.getD 0
            scrollDepth := pv.scrollDepth.getD 0 }) i ∧
    (applyPageViewTrack now (some pv) v).totalPageViews = v.totalPageViews := by
  simp [applyPageViewTrack, hfind]

theorem applyPageViewTrack_append (now : Nat) (pv : PageViewPayload)
    (v : Visitor)
    (hfind : v.pageViews.findIdx? (recentSameUrl now pv.url) = none) :
    (applyPageViewTrack now (some pv) v).pageViews =
      v.pageViews ++
        [{ url := pv.url
           title := pv.title.getD ""
           timestamp := now
           timeSpent := pv.timeSpent.getD 0
           scrollDepth := pv.scrollDepth.getD 0 }] ∧
    (applyPageViewTrack now (some pv) v).totalPageViews =
      v.pageViews.length + 1 := by
  simp [applyPageViewTrack, hfind]

theorem applyPageViewTrack_congr (now : Nat) (o : Option PageViewPayload)
    (w w' : Visitor) (h1 : w.pageViews = w'.pageViews)
    (h2 : w.totalPageViews = w'.totalPageViews) :
    (applyPageViewTrack now o w).pageViews =
      (applyPageViewTrack now o w').pageViews ∧
    (applyPageViewTrack now o w).totalPageViews =
      (applyPageViewTrack now o w').totalPageViews := by
  match o with
  | none => exact ⟨h1, h2⟩
  | some pv =>
      simp only [applyPageViewTrack, h1]
      rcases hf : w'.pageViews.findIdx? (recentSameUrl now pv.url) with _ | i <;>
        simp [hf, h1, h2]

theorem trackExisting_pageViews_eq (now : Nat) (p : TrackPayload)
    (v : Visitor) :
    (trackExisting now p v).pageViews =
      (applyPageViewTrack now p.pageView v).pageViews ∧
    (trackExisting now p v).totalPageViews =
      (applyPageViewTrack now p.pageView v).totalPageViews := by
  simp only [trackExisting]
  have hcongr := applyPageViewTrack_congr now p.pageView
    (applyLocation p.location
      (applyDevice p.device { v with lastVisit := now, isActive := true })) v
    (by rw [(applyLocation_frame _ _).1, (applyDevice_frame _ _).1])
    (by rw [(applyLocation_frame _ _).2.1, (applyDevice_frame _ _).2.1])
  constructor
  · rw [(applyIdentification_frame _ _).1, (applyConversion_frame _ _ _).1,
      (applyInteraction_frame _ _ _).1]
    exact hcongr.1
  · rw [(applyIdentification_frame _ _).2.1, (applyConversion_frame _ _ _).2.1,
      (applyInteraction_frame _ _ _).2.1]
    exact hcongr.2

theorem applyHeartbeatPage_match (p : HeartbeatPayload) (v : Visitor)
    (cp : String) (i : Nat) (hcp : p.currentPage = some cp) (hne : cp ≠ "")
    (hfind : v.pageViews.findIdx? (fun pv => pv.url == cp) = some i) :
    (applyHeartbeatPage p v).pageViews =
      v.pageViews.modify
        (fun (e : PageView) => { e with
            timeSpent := p.timeSpent.getD 0
            scrollDepth := p.scrollDepth.getD 0 }) i := by
  have hlen : v.pageViews.length > 0 := by
    rcases List.findIdx?_eq_some_iff_getElem.mp hfind with ⟨hi, -, -⟩
    omega
  simp only [applyHeartbeatPage, hcp, Option.getD_some]
  rw [if_pos (by simp [hne, hlen]), hfind]

theorem applyHeartbeatPage_nomatch (p : HeartbeatPayload) (v : Visitor) :
    (∀ cp, p.currentPage = some cp → cp ≠ "" →
      v.pageViews.findIdx? (fun pv => pv.url == cp) = none →
      (applyHeartbeatPage p v).pageViews = v.pageViews) ∧
    (applyHeartbeatPage p v).pageViews.length = v.pageViews.length := by
  constructor
  · intro cp hcp hne hfind
    simp only [applyHeartbeatPage, hcp, Option.getD_some]
    rcases hg : decide (cp ≠ "") && decide (v.pageViews.length > 0) with _ | _
    · simp [hg]
    · simp [hg, hfind]
  · simp only [applyHeartbeatPage]
    rcases hg : (match p.currentPage with
        | some cp => decide (cp ≠ "")
        | none => false) && decide (v.pageViews.length > 0) with _ | _
    · simp [hg]
    · simp only [hg, if_true]
      rcases hf : v.pageViews.findIdx?
          (fun pv => pv.url == (p.currentPage.getD "")) with _ | i
      · simp [hf]
      · simp [hf, List.length_modify]

theorem heartbeatUpdate_pageViews_eq (now : Nat) (p : HeartbeatPayload)
    (v : Visitor) :
    (heartbeatUpdate now p v).pageViews =
      (applyHeartbeatPage p { v with
          isActive := true, lastVisit := now
          totalTimeOnSite := (now - v.sessionStart) / 1000
          maxScrollDepth := bumpMax v.maxScrollDepth p.scrollDepth }).pageViews :=
  rfl

theorem applyHeartbeatPage_pageViews_congr (p : HeartbeatPayload)
    (w w' : Visitor) (h : w.pageViews = w'.pageViews) :
    (applyHeartbeatPage p w).pageViews = (applyHeartbeatPage p w').pageViews := by
  simp only [applyHeartbeatPage, h]
  rcases hg : (match p.currentPage with
      | some cp => decide (cp ≠ "")
      | none => false) && decide (w'.pageViews.length > 0) with _ | _
  · simp [hg, h]
  · simp only [hg, if_true]
    rcases hf : w'.pageViews.findIdx?
        (fun pv => pv.url == (p.currentPage.getD "")) with _ | i <;>
      simp [hf, h]

/-! ### Concrete demonstration data used by witnesses and counterexamples -/

/-- A session that has already been ended (`sessionEnd` set). -/
def demoEnded : Visitor :=
  { sessionId := "s1", visitorId := "v1", sessionStart := 1000
    sessionEnd := some 2000, isActive := false, firstVisit := 1000
    lastVisit := 1000, createdAt := 1000, updatedAt := 1000 }

/-- A session whose page-view timeline holds two entries for the same URL
`/a`: an old one (index 0) and a fresher one (index 1). -/
def demoTwoViews : Visitor :=
  { sessionId := "s1", visitorId := "v1", sessionStart := 0
    firstVisit := 0, lastVisit := 0, createdAt := 0, updatedAt := 0
    totalPageViews := 2
    pageViews :=
      [ { url := "/a", title := "", timestamp := 0
          timeSpent := 10, scrollDepth := 10 }
      , { url := "/a", title := "", timestamp := 600000
          timeSpent := 20, scrollDepth := 20 } ] }

/-- A heartbeat for `/a` carrying fresh time and scroll values. -/
def demoHb : HeartbeatPayload :=
  { sessionId := "s1", timeSpent := some 99, scrollDepth := some 5
    currentPage := some "/a" }

/-- An existing session with default (`direct`) traffic source. -/
def demoSession : Visitor :=
  { sessionId := "s1", visitorId := "v1", sessionStart := 1000
    firstVisit := 1000, lastVisit := 1000, createdAt := 1000
    updatedAt := 1000, totalPageViews := 1
    pageViews :=
      [ { url := "/home", title := "", timestamp := 1000
          timeSpent := 0, scrollDepth := 40 } ] }

/-- A continuation payload that re-supplies device, location and traffic
source data. -/
def demoUpdatePayload : TrackPayload :=
  { sessionId := "s1", visitorId := "v1"
    device := some { os := some "Linux" }
    location := some { country := some "India" }
    trafficSource := some { source := some "google", medium := some "cpc" } }

/-! ### Claim theorems -/

/-- Claim C8: a heartbeat or end-session call whose `sessionId` matches no
stored session succeeds (HTTP success response) and leaves the session
store completely unchanged. -/
theorem claim8_unknown_session_noop (store : List Visitor) (now : Nat)
    (ph : HeartbeatPayload) (pe : EndSessionPayload)
    (hh : findSession store ph.sessionId = none)
    (he : findSession store pe.sessionId = none)
    (h1 : ph.sessionId ≠ "") (h2 : pe.sessionId ≠ "") :
    heartbeat store now ph = (store, true) ∧
    endSession store now pe = (store, true) := by
  constructor
  · simp [heartbeat, hh, h1]
  · simp [endSession, he, h2]

/-- Witness for C8 at a concrete input: unknown session on an empty store. -/
theorem claim8_witness :
    heartbeat [] 5 { sessionId := "s9" } = ([], true) ∧
    endSession [] 5 { sessionId := "s9" } = ([], true) :=
  claim8_unknown_session_noop [] 5 { sessionId := "s9" }
    { sessionId := "s9" } rfl rfl (by decide) (by decide)

/-- Counterexample to C4 as stated: `demoEnded` already has
`sessionEnd = some 2000`, yet a further end-session call is not a no-op —
it overwrites `sessionEnd` with the new call time `9000`. -/
theorem claim4_counterexample :
    demoEnded.sessionEnd = some 2000 ∧
    (findSession (endSession [demoEnded] 9000 { sessionId := "s1" }).1
        "s1").map Visitor.sessionEnd = some (some 9000) := by
  constructor
  · rfl
  · rfl

/-- Claim C4 (amended): every end-session call on an existing session sets
`sessionEnd` to the call time — also when the session was already ended, so
`sessionEnd` is the time of the **last** end-session call, not the first —
sets `isActive = false`, and recomputes
`totalTimeOnSite = (now - sessionStart) / 1000`. -/
theorem claim4_endsession_always_overwrites (store : List Visitor)
    (now : Nat) (p : EndSessionPayload) (v : Visitor)
    (hv : findSession store p.sessionId = some v) (hsid : p.sessionId ≠ "") :
    ∃ w, findSession (endSession store now p).1 p.sessionId = some w ∧
      w.sessionEnd = some now ∧ w.isActive = false ∧
      w.totalTimeOnSite = (now - v.sessionStart) / 1000 := by
  have hvsid : v.sessionId = p.sessionId := findSession_some_sessionId hv
  refine ⟨presave now (endSessionUpdate now p v), ?_, ?_, ?_, ?_⟩
  · have hstore : (endSession store now p).1 =
        replaceFirst store p.sessionId (presave now (endSessionUpdate now p v)) := by
      simp [endSession, hv, hsid]
    rw [hstore]
    exact findSession_replaceFirst_self hv
      (by rw [(presave_frame _ _).1, (endSessionUpdate_fields _ _ _).1, hvsid])
  · rw [(presave_frame _ _).2.2.2.2.2.2.2.2.2.1,
      (endSessionUpdate_fields _ _ _).2.1]
  · rw [(presave_frame _ _).2.2.2.2.2.2.2.2.2.2.1,
      (endSessionUpdate_fields _ _ _).2.2.1]
  · rw [(presave_frame _ _).2.2.2.2.2.2.2.2.2.2.2.1,
      (endSessionUpdate_fields _ _ _).2.2.2.1]

/-- Witness for the amended C4 at a concrete input: the second end-session
call moves `sessionEnd` to the new call time. -/
theorem claim4_witness :
    ∃ w, findSession (endSession [demoEnded] 9000 { sessionId := "s1" }).1
        "s1" = some w ∧
      w.sessionEnd = some 9000 ∧ w.isActive = false ∧
      w.totalTimeOnSite = (9000 - demoEnded.sessionStart) / 1000 :=
  claim4_endsession_always_overwrites [demoEnded] 9000 { sessionId := "s1" }
    demoEnded rfl (by decide)

theorem trackExisting_device (now : Nat) (p : TrackPayload) (v : Visitor) :
    (trackExisting now p v).device =
      (applyDevice p.device { v with lastVisit := now, isActive := true }).device := by
  simp only [trackExisting]
  rw [(applyIdentification_frame _ _).2.2.2.2.2.2.2.2.2.1,
      (applyConversion_frame _ _ _).2.2.2.2.2.2.2.2.2.1,
      (applyInteraction_frame _ _ _).2.2.2.2.2.2.2.2.2.1,
      (applyPageViewTrack_frame _ _ _).2.2.2.2.2.2.1,
      (applyLocation_frame _ _).2.2.2.2.2.2.2.2.2.1]

theorem trackExisting_location (now : Nat) (p : TrackPayload) (v : Visitor) :
    (trackExisting now p v).location =
      (applyLocation p.location
        (applyDevice p.device { v with lastVisit := now, isActive := true })).location := by
  simp only [trackExisting]
  rw [(applyIdentification_frame _ _).2.2.2.2.2.2.2.2.2.2.1,
      (applyConversion_frame _ _ _).2.2.2.2.2.2.2.2.2.2.1,
      (applyInteraction_frame _ _ _).2.2.2.2.2.2.2.2.2.2.1,
      (applyPageViewTrack_frame _ _ _).2.2.2.2.2.2.2.1]

theorem trackExisting_trafficSource (now : Nat) (p : TrackPayload)
    (v : Visitor) :
    (trackExisting now p v).trafficSource = v.trafficSource := by
  simp only [trackExisting]
  rw [(applyIdentification_frame _ _).2.2.2.2.2.2.2.2.1,
      (applyConversion_frame _ _ _).2.2.2.2.2.2.2.2.1,
      (applyInteraction_frame _ _ _).2.2.2.2.2.2.2.2.1,
      (applyPageViewTrack_frame _ _ _).2.2.2.2.2.1,
      (applyLocation_frame _ _).2.2.2.2.2.2.2.2.1,
      (applyDevice_frame _ _).2.2.2.2.2.2.2.2.1]

/-- Counterexample to C5 as stated: on an existing-session track call the
payload supplies `trafficSource.source = "google"`, but the stored traffic
source keeps its old value `"direct"` — the existing-session branch never
writes `trafficSource`. -/
theorem claim5_counterexample :
    demoUpdatePayload.trafficSource =
      some { source := some "google", medium := some "cpc" } ∧
    (trackExisting 5000 demoUpdatePayload demoSession).trafficSource.source =
      "direct" ∧
    demoSession.trafficSource.source = "direct" := by
  refine ⟨rfl, ?_, rfl⟩
  rw [trackExisting_trafficSource]
  rfl

/-- Claim C5 (amended): on a track call for an existing session the
supplied `device` and `location` sub-records overwrite the stored ones
field-by-field (a supplied field replaces, an absent field keeps its prior
value), absent sub-records leave the stored sub-record unchanged, but a
supplied `trafficSource` is ignored: the stored traffic source always
keeps its prior value (it is only written at session creation). -/
theorem claim5_device_location_overwrite_trafficSource_kept
    (v : Visitor) (now : Nat) (p : TrackPayload) :
    (∀ d, p.device = some d →
      (trackExisting now p v).device = v.device.spread d) ∧
    (p.device = none → (trackExisting now p v).device = v.device) ∧
    (∀ l, p.location = some l →
      (trackExisting now p v).location = v.location.spread l) ∧
    (p.location = none → (trackExisting now p v).location = v.location) ∧
    (trackExisting now p v).trafficSource = v.trafficSource := by
  refine ⟨?_, ?_, ?_, ?_, trackExisting_trafficSource now p v⟩
  · intro d hd
    rw [trackExisting_device, hd]
    rfl
  · intro hd
    rw [trackExisting_device, hd]
    rfl
  · intro l hl
    rw [trackExisting_location, hl]
    rcases hd : p.device with _ | d <;> rfl
  · intro hl
    rw [trackExisting_location, hl]
    rcases hd : p.device with _ | d <;> rfl

/-- Witness for the amended C5 at a concrete input: `os` is overwritten,
the unsupplied `browser` survives, `country` is overwritten, and the
supplied traffic source is dropped. -/
theorem claim5_witness :
    (trackExisting 5000 demoUpdatePayload demoSession).device =
      demoSession.device.spread { os := some "Linux" } ∧
    (trackExisting 5000 demoUpdatePayload demoSession).location =
      demoSession.location.spread { country := some "India" } ∧
    (trackExisting 5000 demoUpdatePayload demoSession).trafficSource =
      demoSession.trafficSource :=
  ⟨(claim5_device_location_overwrite_trafficSource_kept demoSession 5000
      demoUpdatePayload).1 _ rfl,
   (claim5_device_location_overwrite_trafficSource_kept demoSession 5000
      demoUpdatePayload).2.2.1 _ rfl,
   (claim5_device_location_overwrite_trafficSource_kept demoSession 5000
      demoUpdatePayload).2.2.2.2⟩

/-- Counterexample to C6 as stated: `demoTwoViews` holds two entries for
URL `/a`; a heartbeat for `/a` updates the **oldest** entry (index `0`
takes the incoming `timeSpent = 99`) while the most recent matching entry
(index `1`) keeps its old `timeSpent = 20`. -/
theorem claim6_counterexample :
    (demoTwoViews.pageViews.map PageView.url = ["/a", "/a"]) ∧
    ((heartbeatUpdate 700000 demoHb demoTwoViews).pageViews.map
        PageView.timeSpent = [99, 20]) ∧
    demoTwoViews.pageViews.map PageView.timeSpent = [10, 20] := by
  refine ⟨rfl, ?_, rfl⟩
  rfl

/-- Claim C6 (amended): a heartbeat whose `currentPage` matches at least
one stored page-view entry updates, in place, the **earliest** matching
entry — the first entry with that URL, not the latest — and a heartbeat
never adds or removes page-view entries. -/
theorem claim6_heartbeat_updates_first_match (now : Nat)
    (p : HeartbeatPayload) (v : Visitor) :
    (heartbeatUpdate now p v).pageViews.length = v.pageViews.length ∧
    (∀ cp, p.currentPage = some cp → cp ≠ "" →
      (∃ e ∈ v.pageViews, e.url = cp) →
      ∃ i, (∀ j, j < i → ∀ e, v.pageViews[j]? = some e → e.url ≠ cp) ∧
        (v.pageViews[i]?.map PageView.url = some cp) ∧
        (heartbeatUpdate now p v).pageViews =
          v.pageViews.modify
            (fun (e : PageView) => { e with
                timeSpent := p.timeSpent.getD 0
                scrollDepth := p.scrollDepth.getD 0 }) i) := by
  constructor
  · rw [heartbeatUpdate_pageViews_eq]
    exact (applyHeartbeatPage_nomatch p _).2
  · intro cp hcp hne hex
    rcases hf : v.pageViews.findIdx? (fun pv => pv.url == cp) with _ | i
    · exfalso
      rcases hex with ⟨e, hmem, heq⟩
      have := List.findIdx?_eq_none_iff.mp hf e hmem
      simp [heq] at this
    · rcases List.findIdx?_eq_some_iff_getElem.mp hf with ⟨hi, hmatch, hbefore⟩
      refine ⟨i, ?_, ?_, ?_⟩
      · intro j hj e hje
        have hjlt : j < v.pageViews.length := by
          rcases List.getElem?_eq_some_iff.mp hje with ⟨hh, -⟩
          exact hh
        have := hbefore j hj
        rcases List.getElem?_eq_some_iff.mp hje with ⟨hh, hee⟩
        intro hurl
        apply this
        rw [hee, hurl]
        simp
      · rw [List.getElem?_eq_getElem hi]
        simpa using beq_iff_eq.mp hmatch
      · rw [heartbeatUpdate_pageViews_eq]
        exact applyHeartbeatPage_match p _ cp i hcp hne hf

/-- Witness for the amended C6 at a concrete input: with two `/a` entries,
the heartbeat rewrites the earliest (index `0`). -/
theorem claim6_witness :
    (heartbeatUpdate 700000 demoHb demoTwoViews).pageViews.length =
      demoTwoViews.pageViews.length ∧
    ∃ i, (∀ j, j < i → ∀ e, demoTwoViews.pageViews[j]? = some e →
            e.url ≠ "/a") ∧
      (demoTwoViews.pageViews[i]?.map PageView.url = some "/a") ∧
      (heartbeatUpdate 700000 demoHb demoTwoViews).pageViews =
        demoTwoViews.pageViews.modify
          (fun (e : PageView) => { e with
              timeSpent := demoHb.timeSpent.getD 0
              scrollDepth := demoHb.scrollDepth.getD 0 }) i :=
  ⟨(claim6_heartbeat_updates_first_match 700000 demoHb demoTwoViews).1,
   (claim6_heartbeat_updates_first_match 700000 demoHb demoTwoViews).2
     "/a" rfl (by decide)
     ⟨demoTwoViews.pageViews.head (by decide), by decide, by decide⟩⟩

/-- Claim C9: a heartbeat whose `currentPage` matches a stored entry but
whose `timeSpent` (resp. `scrollDepth`) is absent or `0` overwrites the
matched entry's `timeSpent` (resp. `scrollDepth`) with `0`, discarding the
previously recorded value. -/
theorem claim9_heartbeat_zero_overwrite (now : Nat) (p : HeartbeatPayload)
    (v : Visitor) (cp : String) (i : Nat)
    (hcp : p.currentPage = some cp) (hne : cp ≠ "")
    (hfind : v.pageViews.findIdx? (fun pv => pv.url == cp) = some i) :
    ((p.timeSpent = none ∨ p.timeSpent = some 0) →
      ((heartbeatUpdate now p v).pageViews[i]?).map PageView.timeSpent =
        some 0) ∧
    ((p.scrollDepth = none ∨ p.scrollDepth = some 0) →
      ((heartbeatUpdate now p v).pageViews[i]?).map PageView.scrollDepth =
        some 0) := by
  rcases List.findIdx?_eq_some_iff_getElem.mp hfind with ⟨hi, -, -⟩
  have hpage : (heartbeatUpdate now p v).pageViews =
      v.pageViews.modify
        (fun (e : PageView) => { e with
            timeSpent := p.timeSpent.getD 0
            scrollDepth := p.scrollDepth.getD 0 }) i := by
    rw [heartbeatUpdate_pageViews_eq]
    exact applyHeartbeatPage_match p _ cp i hcp hne hfind
  have hgot : (heartbeatUpdate now p v).pageViews[i]? =
      some { v.pageViews[i] with
          timeSpent := p.timeSpent.getD 0
          scrollDepth := p.scrollDepth.getD 0 } := by
    rw [hpage, List.getElem?_modify, List.getElem?_eq_getElem hi]
    simp
  constructor
  · intro hts
    rw [hgot]
    rcases hts with h | h <;> simp [h]
  · intro hsd
    rw [hgot]
    rcases hsd with h | h <;> simp [h]

/-- Witness for C9 at a concrete input: a heartbeat for `/a` with no
`timeSpent` and `scrollDepth = 0` zeroes both fields of the matched entry
(which previously held `10`). -/
theorem claim9_witness :
    (((heartbeatUpdate 700000
        { sessionId := "s1", scrollDepth := some 0, currentPage := some "/a" }
        demoTwoViews).pageViews[0]?).map PageView.timeSpent = some 0) ∧
    (((heartbeatUpdate 700000
        { sessionId := "s1", scrollDepth := some 0, currentPage := some "/a" }
        demoTwoViews).pageViews[0]?).map PageView.scrollDepth = some 0) :=
  ⟨(claim9_heartbeat_zero_overwrite 700000
      { sessionId := "s1", scrollDepth := some 0, currentPage := some "/a" }
      demoTwoViews "/a" 0 rfl (by decide) (by decide)).1 (Or.inl rfl),
   (claim9_heartbeat_zero_overwrite 700000
      { sessionId := "s1", scrollDepth := some 0, currentPage := some "/a" }
      demoTwoViews "/a" 0 rfl (by decide) (by decide)).2 (Or.inr rfl)⟩

theorem newVisitorRecord_identity (now : Nat) (p : TrackPayload)
    (ip : String) (existing : Option Visitor) :
    (newVisitorRecord now p ip existing).visitCount =
      (match existing with | some e => e.visitCount + 1 | none => 1) ∧
    (newVisitorRecord now p ip existing).visitorType =
      (if existing.isSome then "returning" else "new") ∧
    (newVisitorRecord now p ip existing).firstVisit =
      (match existing with | some e => e.firstVisit | none => now) := by
  rcases h : p.pageView with _ | pv <;> simp [newVisitorRecord, h]

theorem newVisitorRecord_pageViews (now : Nat) (p : TrackPayload)
    (ip : String) (existing : Option Visitor) :
    (p.pageView = none →
      (newVisitorRecord now p ip existing).pageViews = [] ∧
      (newVisitorRecord now p ip existing).totalPageViews = 0) ∧
    (∀ pv, p.pageView = some pv →
      (newVisitorRecord now p ip existing).pageViews =
        [{ url := pv.url, title := pv.title.getD "", timestamp := now
           timeSpent := 0, scrollDepth := pv.scrollDepth.getD 0 }] ∧
      (newVisitorRecord now p ip existing).totalPageViews = 1) := by
  constructor
  · intro h
    simp [newVisitorRecord, h]
  · intro pv h
    simp [newVisitorRecord, h]

/-- On a track call for an unseen `sessionId`, the post-call store resolves
that `sessionId` to the freshly created record (derived from the most
recent prior session of the same `visitorId`). -/
theorem track_new_session (store : List Visitor) (now : Nat)
    (p : TrackPayload) (ip : String)
    (hnone : findSession store p.sessionId = none)
    (hsid : p.sessionId ≠ "") (hvid : p.visitorId ≠ "") :
    findSession (track store now p ip).1 p.sessionId =
      some (presave now
        (newVisitorRecord now p ip (latestByVisitorId store p.visitorId))) := by
  have hstore : (track store now p ip).1 = store ++
      [presave now
        (newVisitorRecord now p ip (latestByVisitorId store p.visitorId))] := by
    simp [track, hnone, hsid, hvid]
  rw [hstore, findSession_append, hnone]
  have hws : (presave now
      (newVisitorRecord now p ip
        (latestByVisitorId store p.visitorId))).sessionId = p.sessionId := by
    rw [(presave_frame _ _).1, (newVisitorRecord_base _ _ _ _).1]
  simp [hws]

/-- Claim C3: a session-creating track call derives `visitCount`,
`visitorType` and `firstVisit` from the most recent prior session of the
same `visitorId` (count + 1, `"returning"`, carried-forward `firstVisit`),
or (`1`, `"new"`, now) if no prior session exists; and no later track,
heartbeat or end-session call on the record ever changes these three
fields. -/
theorem claim3_new_session_classification (store : List Visitor) (now : Nat)
    (p : TrackPayload) (ip : String)
    (hnone : findSession store p.sessionId = none)
    (hsid : p.sessionId ≠ "") (hvid : p.visitorId ≠ "") :
    ∃ w, findSession (track store now p ip).1 p.sessionId = some w ∧
      (∀ e, latestByVisitorId store p.visitorId = some e →
        w.visitCount = e.visitCount + 1 ∧ w.visitorType = "returning" ∧
        w.firstVisit = e.firstVisit) ∧
      (latestByVisitorId store p.visitorId = none →
        w.visitCount = 1 ∧ w.visitorType = "new" ∧ w.firstVisit = now) ∧
      (∀ now2 p2, (trackExisting now2 p2 w).visitCount = w.visitCount ∧
        (trackExisting now2 p2 w).visitorType = w.visitorType ∧
        (trackExisting now2 p2 w).firstVisit = w.firstVisit) ∧
      (∀ now2 p2, (heartbeatUpdate now2 p2 w).visitCount = w.visitCount ∧
        (heartbeatUpdate now2 p2 w).visitorType = w.visitorType ∧
        (heartbeatUpdate now2 p2 w).firstVisit = w.firstVisit) ∧
      (∀ now2 p2, (endSessionUpdate now2 p2 w).visitCount = w.visitCount ∧
        (endSessionUpdate now2 p2 w).visitorType = w.visitorType ∧
        (endSessionUpdate now2 p2 w).firstVisit = w.firstVisit) := by
  refine ⟨presave now
      (newVisitorRecord now p ip (latestByVisitorId store p.visitorId)),
    track_new_session store now p ip hnone hsid hvid, ?_, ?_, ?_, ?_, ?_⟩
  · intro e he
    have hid := newVisitorRecord_identity now p ip
      (latestByVisitorId store p.visitorId)
    refine ⟨?_, ?_, ?_⟩
    · rw [(presave_frame _ _).2.2.2.2.1, hid.1, he]
    · rw [(presave_frame _ _).2.2.2.2.2.1, hid.2.1, he]
      rfl
    · rw [(presave_frame _ _).2.2.2.2.2.2.1, hid.2.2, he]
  · intro he
    have hid := newVisitorRecord_identity now p ip
      (latestByVisitorId store p.visitorId)
    refine ⟨?_, ?_, ?_⟩
    · rw [(presave_frame _ _).2.2.2.2.1, hid.1, he]
    · rw [(presave_frame _ _).2.2.2.2.2.1, hid.2.1, he]
      rfl
    · rw [(presave_frame _ _).2.2.2.2.2.2.1, hid.2.2, he]
  · intro now2 p2
    exact trackExisting_identity now2 p2 _
  · intro now2 p2
    exact heartbeatUpdate_identity now2 p2 _
  · intro now2 p2
    have h := endSessionUpdate_fields now2 p2 (presave now
      (newVisitorRecord now p ip (latestByVisitorId store p.visitorId)))
    exact ⟨h.2.2.2.2.2.1, h.2.2.2.2.2.2.1, h.2.2.2.2.2.2.2⟩

/-- Witness for C3 at a concrete input: with one prior session of
`visitorId = "v1"` (count 1), a track call with a fresh `sessionId` yields
a returning session with count 2 and the prior `firstVisit`. -/
theorem claim3_witness :
    ∃ w, findSession
        (track [demoEnded] 5000 { sessionId := "s2", visitorId := "v1" }
          "ip").1 "s2" = some w ∧
      (∀ e, latestByVisitorId [demoEnded] "v1" = some e →
        w.visitCount = e.visitCount + 1 ∧ w.visitorType = "returning" ∧
        w.firstVisit = e.firstVisit) ∧
      (latestByVisitorId [demoEnded] "v1" = none →
        w.visitCount = 1 ∧ w.visitorType = "new" ∧ w.firstVisit = 5000) ∧
      (∀ now2 p2, (trackExisting now2 p2 w).visitCount = w.visitCount ∧
        (trackExisting now2 p2 w).visitorType = w.visitorType ∧
        (trackExisting now2 p2 w).firstVisit = w.firstVisit) ∧
      (∀ now2 p2, (heartbeatUpdate now2 p2 w).visitCount = w.visitCount ∧
        (heartbeatUpdate now2 p2 w).visitorType = w.visitorType ∧
        (heartbeatUpdate now2 p2 w).firstVisit = w.firstVisit) ∧
      (∀ now2 p2, (endSessionUpdate now2 p2 w).visitCount = w.visitCount ∧
        (endSessionUpdate now2 p2 w).visitorType = w.visitorType ∧
        (endSessionUpdate now2 p2 w).firstVisit = w.firstVisit) :=
  claim3_new_session_classification [demoEnded] 5000
    { sessionId := "s2", visitorId := "v1" } "ip" rfl (by decide) (by decide)

/-- Claim C10: a session-creating track call discards any `interaction` or
`conversion` in the same payload — the new record's `interactions` and
`conversions` are always empty — and records at most the payload's
`pageView` (an empty timeline without one, a single entry with one). -/
theorem claim10_new_session_discards_events (store : List Visitor)
    (now : Nat) (p : TrackPayload) (ip : String)
    (hnone : findSession store p.sessionId = none)
    (hsid : p.sessionId ≠ "") (hvid : p.visitorId ≠ "") :
    ∃ w, findSession (track store now p ip).1 p.sessionId = some w ∧
      w.interactions = [] ∧ w.conversions = [] ∧
      (p.pageView = none → w.pageViews = [] ∧ w.totalPageViews = 0) ∧
      (∀ pv, p.pageView = some pv →
        w.pageViews.length = 1 ∧ w.totalPageViews = 1) := by
  refine ⟨presave now
      (newVisitorRecord now p ip (latestByVisitorId store p.visitorId)),
    track_new_session store now p ip hnone hsid hvid, ?_, ?_, ?_, ?_⟩
  · rw [(presave_frame _ _).2.2.2.2.2.2.2.1,
      (newVisitorRecord_base _ _ _ _).2.2.1]
  · rw [(presave_frame _ _).2.2.2.2.2.2.2.2.1,
      (newVisitorRecord_base _ _ _ _).2.2.2]
  · intro h
    have hpv := (newVisitorRecord_pageViews now p ip
      (latestByVisitorId store p.visitorId)).1 h
    exact ⟨by rw [(presave_frame _ _).2.2.1, hpv.1],
      by rw [(presave_frame _ _).2.2.2.1, hpv.2]⟩
  · intro pv h
    have hpv := (newVisitorRecord_pageViews now p ip
      (latestByVisitorId store p.visitorId)).2 pv h
    exact ⟨by rw [(presave_frame _ _).2.2.1, hpv.1]; rfl,
      by rw [(presave_frame _ _).2.2.2.1, hpv.2]⟩

/-- Witness for C10 at a concrete input: a session-creating payload
carrying both an interaction and a conversion still yields a record with
empty `interactions` and `conversions`. -/
theorem claim10_witness :
    ∃ w, findSession
        (track [] 0
          { sessionId := "s3", visitorId := "v9"
            interaction := some
              { type := "click", element := "btn", page := "/home"
                data := "d" }
            conversion := some
              { type := "form_submit", page := "/home", data := "d" } }
          "ip").1 "s3" = some w ∧
      w.interactions = [] ∧ w.conversions = [] ∧
      ((none : Option PageViewPayload) = none →
        w.pageViews = [] ∧ w.totalPageViews = 0) ∧
      (∀ pv, (none : Option PageViewPayload) = some pv →
        w.pageViews.length = 1 ∧ w.totalPageViews = 1) :=
  claim10_new_session_discards_events [] 0
    { sessionId := "s3", visitorId := "v9"
      interaction := some
        { type := "click", element := "btn", page := "/home", data := "d" }
      conversion := some
        { type := "form_submit", page := "/home", data := "d" } }
    "ip" rfl (by decide) (by decide)

/-- On a track call for an existing session, the post-call store resolves
the `sessionId` to the updated record. -/
theorem track_existing_session (store : List Visitor) (now : Nat)
    (p : TrackPayload) (ip : String) (v : Visitor)
    (hv : findSession store p.sessionId = some v)
    (hsid : p.sessionId ≠ "") (hvid : p.visitorId ≠ "") :
    findSession (track store now p ip).1 p.sessionId =
      some (presave now (trackExisting now p v)) := by
  have hvs : v.sessionId = p.sessionId := findSession_some_sessionId hv
  have hstore : (track store now p ip).1 =
      replaceFirst store p.sessionId (presave now (trackExisting now p v)) := by
    simp [track, hv, hsid, hvid]
  rw [hstore]
  exact findSession_replaceFirst_self hv
    (by rw [(presave_frame _ _).1, trackExisting_sessionId, hvs])

/-- A continuation payload that re-submits `/home` with fresh values. -/
def demoMergePayload : TrackPayload :=
  { sessionId := "s1", visitorId := "v1"
    pageView := some
      { url := "/home", timeSpent := some 7, scrollDepth := some 55 } }

/-- Claim C1: a track call on an existing session carrying a `pageView`
merges when some stored entry has the same URL and a timestamp within 5
minutes of the call — that (first such) entry's `timeSpent`/`scrollDepth`
are overwritten with the incoming values, no entry is added,
`totalPageViews` is unchanged — and otherwise appends a new entry and
increments `totalPageViews` by exactly one. -/
theorem claim1_pageview_merge_rule (store : List Visitor) (now : Nat)
    (p : TrackPayload) (ip : String) (v : Visitor) (pv : PageViewPayload)
    (ts sd : Nat)
    (hv : findSession store p.sessionId = some v)
    (hsid : p.sessionId ≠ "") (hvid : p.visitorId ≠ "")
    (hpv : p.pageView = some pv)
    (hts : pv.timeSpent = some ts) (hsd : pv.scrollDepth = some sd)
    (htot : v.totalPageViews = v.pageViews.length) :
    ∃ w, findSession (track store now p ip).1 p.sessionId = some w ∧
      ((∃ e ∈ v.pageViews, recentSameUrl now pv.url e = true) →
        ∃ i e, v.pageViews[i]? = some e ∧
          recentSameUrl now pv.url e = true ∧
          w.pageViews = v.pageViews.set i
            { e with timeSpent := ts, scrollDepth := sd } ∧
          w.pageViews.length = v.pageViews.length ∧
          w.totalPageViews = v.totalPageViews) ∧
      ((∀ e ∈ v.pageViews, recentSameUrl now pv.url e = false) →
        w.pageViews = v.pageViews ++
          [{ url := pv.url, title := pv.title.getD "", timestamp := now
             timeSpent := ts, scrollDepth := sd }] ∧
        w.totalPageViews = v.totalPageViews + 1) := by
  refine ⟨presave now (trackExisting now p v),
    track_existing_session store now p ip v hv hsid hvid, ?_, ?_⟩
  · intro hex
    rcases hf : v.pageViews.findIdx? (recentSameUrl now pv.url) with _ | i
    · exfalso
      rcases hex with ⟨e, hmem, heq⟩
      have := List.findIdx?_eq_none_iff.mp hf e hmem
      simp [heq] at this
    · rcases List.findIdx?_eq_some_iff_getElem.mp hf with ⟨hi, hmatch, -⟩
      have hmerge := applyPageViewTrack_merge now pv v i hf
      have hpw : (presave now (trackExisting now p v)).pageViews =
          v.pageViews.modify
            (fun (e : PageView) => { e with
                timeSpent := pv.timeSpent.getD 0
                scrollDepth := pv.scrollDepth.getD 0 }) i := by
        rw [(presave_frame _ _).2.2.1, (trackExisting_pageViews_eq _ _ _).1,
          hpv, hmerge.1]
      have htw : (presave now (trackExisting now p v)).totalPageViews =
          v.totalPageViews := by
        rw [(presave_frame _ _).2.2.2.1, (trackExisting_pageViews_eq _ _ _).2,
          hpv, hmerge.2]
      refine ⟨i, v.pageViews[i], List.getElem?_eq_getElem hi, hmatch,
        ?_, ?_, htw⟩
      · rw [hpw, List.modify_eq_set, List.getElem?_eq_getElem hi,
          Option.getD_some, hts, hsd]
        rfl
      · rw [hpw, List.length_modify]
  · intro hall
    have hf : v.pageViews.findIdx? (recentSameUrl now pv.url) = none :=
      List.findIdx?_eq_none_iff.mpr (fun e he => by simp [hall e he])
    have happ := applyPageViewTrack_append now pv v hf
    constructor
    · rw [(presave_frame _ _).2.2.1, (trackExisting_pageViews_eq _ _ _).1,
        hpv, happ.1, hts, hsd]
      rfl
    · rw [(presave_frame _ _).2.2.2.1, (trackExisting_pageViews_eq _ _ _).2,
        hpv, happ.2, htot]

/-- Witness for C1 at a concrete input: re-submitting `/home` one minute
after the stored entry merges into it (the merge branch applies, and its
conclusion is inhabited at index `0`). -/
theorem claim1_witness :
    ∃ w, findSession
        (track [demoSession] 60000 demoMergePayload "ip").1 "s1" = some w ∧
      ((∃ e ∈ demoSession.pageViews, recentSameUrl 60000 "/home" e = true) →
        ∃ i e, demoSession.pageViews[i]? = some e ∧
          recentSameUrl 60000 "/home" e = true ∧
          w.pageViews = demoSession.pageViews.set i
            { e with timeSpent := 7, scrollDepth := 55 } ∧
          w.pageViews.length = demoSession.pageViews.length ∧
          w.totalPageViews = demoSession.totalPageViews) ∧
      ((∀ e ∈ demoSession.pageViews, recentSameUrl 60000 "/home" e = false) →
        w.pageViews = demoSession.pageViews ++
          [{ url := "/home", title := "", timestamp := 60000
             timeSpent := 7, scrollDepth := 55 }] ∧
        w.totalPageViews = demoSession.totalPageViews + 1) :=
  claim1_pageview_merge_rule [demoSession] 60000 demoMergePayload "ip"
    demoSession { url := "/home", timeSpent := some 7, scrollDepth := some 55 }
    7 55 rfl (by decide) (by decide) rfl rfl rfl rfl

/-! ### Evaluating the binary64 bounce-rate pipeline -/

theorem int_log2_eq {r : ℚ} {e : ℤ} (hr : 0 < r)
    (h1 : (2:ℚ) ^ e ≤ r) (h2 : r < (2:ℚ) ^ (e + 1)) : Int.log 2 r = e := by
  have hcast : ((2:ℕ):ℚ) = (2:ℚ) := by norm_num
  have h1a : ((2:ℕ):ℚ) ^ e ≤ r := by rw [hcast]; exact h1
  have h2a : r < ((2:ℕ):ℚ) ^ (e + 1) := by rw [hcast]; exact h2
  have hlo := (Int.zpow_le_iff_le_log one_lt_two hr).mp h1a
  have hhi := (Int.lt_zpow_iff_log_lt one_lt_two hr).mp h2a
  omega

theorem roundNearestEven_eq_below {x : ℚ} {n : ℤ} (h1 : ⌊x⌋ = n)
    (h2 : x - (n : ℚ) < 1/2) : roundNearestEven x = n := by
  simp only [roundNearestEven, h1, if_pos h2]

theorem fl64_eq {q : ℚ} {e m : ℤ} (hq : 0 < q)
    (hlog : Int.log 2 q = e)
    (hm : roundNearestEven (q * (2:ℚ) ^ ((52:ℤ) - e)) = m) :
    fl64 q = (m : ℚ) * (2:ℚ) ^ (e - 52) := by
  rw [fl64, if_neg (ne_of_gt hq), if_pos hq, fl64pos, hlog, hm]

/-- `113 / 200` in binary64: the correctly rounded quotient is
`5089067578928660 / 2^53`, strictly below the exact `0.565`. -/
theorem fl64_div_113_200 :
    fl64 ((113:ℚ) / 200) = 1272266894732165 / 2251799813685248 := by
  rw [fl64_eq (e := -1) (m := 5089067578928660) (by norm_num)
    (int_log2_eq (by norm_num) (by norm_num) (by norm_num))
    (roundNearestEven_eq_below
      (Int.floor_eq_iff.mpr (by norm_num)) (by norm_num))]
  norm_num

/-- Multiplying that double by `100` in binary64 lands on
`7951668092076031 / 2^47 = 56.49999999999999…`, strictly below `56.5`. -/
theorem fl64_mul100_113_200 :
    fl64 ((1272266894732165:ℚ) / 2251799813685248 * 100) =
      7951668092076031 / 140737488355328 := by
  rw [fl64_eq (e := 5) (m := 7951668092076031) (by norm_num)
    (int_log2_eq (by norm_num) (by norm_num) (by norm_num))
    (roundNearestEven_eq_below
      (Int.floor_eq_iff.mpr (by norm_num)) (by norm_num))]
  norm_num

theorem round_fl64_product_113_200 :
    round ((7951668092076031:ℚ) / 140737488355328) = 56 := by
  rw [round_eq, Int.floor_eq_iff]
  norm_num

theorem fl64_one : fl64 1 = 1 := by
  rw [fl64_eq (e := 0) (m := 4503599627370496) (by norm_num)
    (int_log2_eq (by norm_num) (by norm_num) (by norm_num))
    (roundNearestEven_eq_below
      (Int.floor_eq_iff.mpr (by norm_num)) (by norm_num))]
  norm_num

theorem fl64_hundred : fl64 100 = 100 := by
  rw [fl64_eq (e := 6) (m := 7036874417766400) (by norm_num)
    (int_log2_eq (by norm_num) (by norm_num) (by norm_num))
    (roundNearestEven_eq_below
      (Int.floor_eq_iff.mpr (by norm_num)) (by norm_num))]
  norm_num

/-- Unfolding `bounceRate` once the two counts are known. -/
theorem bounceRate_eq (store : List Visitor) (f : Visitor → Bool)
    (s t : Nat)
    (hs : (store.filter
      (fun v => f v && !v.isBot && v.totalPageViews == 1)).length = s)
    (ht : (store.filter (fun v => f v && !v.isBot)).length = t)
    (hpos : 0 < t) :
    bounceRate store f = round (fl64 (fl64 ((s : ℚ) / (t : ℚ)) * 100)) := by
  simp only [bounceRate, hs, ht]
  rw [if_pos hpos]

/-- A bounced (single page view) non-bot session. -/
def demoBounceVisitor : Visitor :=
  { sessionId := "b", visitorId := "b", sessionStart := 0, firstVisit := 0
    lastVisit := 0, createdAt := 0, updatedAt := 0, totalPageViews := 1 }

/-- A non-bounced (two page views) non-bot session. -/
def demoDeepVisitor : Visitor :=
  { sessionId := "d", visitorId := "d", sessionStart := 0, firstVisit := 0
    lastVisit := 0, createdAt := 0, updatedAt := 0, totalPageViews := 2 }

/-- 200 non-bot sessions of which 113 bounced. -/
def demoStore200 : List Visitor :=
  List.replicate 113 demoBounceVisitor ++ List.replicate 87 demoDeepVisitor

set_option maxRecDepth 8000 in
/-- Counterexample to C7 as stated: over 200 non-bot sessions of which
113 have exactly one page view, the endpoint computes
`Math.round((113/200)*100)` in binary64, where `(113/200)*100`
evaluates to `56.49999999999999` and rounds to `56` — but the claim's
formula `round(100·113/200) = round(56.5)` is `57`. -/
theorem claim7_counterexample :
    (demoStore200.filter
      (fun v => (fun (_ : Visitor) => true) v && !v.isBot &&
        v.totalPageViews == 1)).length = 113 ∧
    (demoStore200.filter
      (fun v => (fun (_ : Visitor) => true) v && !v.isBot)).length = 200 ∧
    bounceRate demoStore200 (fun _ => true) = 56 ∧
    round ((100 * (113 : ℚ)) / 200) = 57 := by
  refine ⟨by decide, by decide, ?_, ?_⟩
  · rw [bounceRate_eq demoStore200 (fun _ => true) 113 200 (by decide)
      (by decide) (by norm_num)]
    have hc1 : (((113:ℕ)) : ℚ) = (113:ℚ) := by norm_num
    have hc2 : (((200:ℕ)) : ℚ) = (200:ℚ) := by norm_num
    rw [hc1, hc2, fl64_div_113_200, fl64_mul100_113_200]
    exact round_fl64_product_113_200
  · rw [round_eq, Int.floor_eq_iff]
    norm_num

/-- Claim C7 (amended): the bounce rate is `Math.round` applied to the
**binary64** evaluation of `(single/total)·100`, which can differ by one
from the exactly rounded percentage (113 of 200 yields 56, not 57); it is
still `0` over an empty filtered set (no division error) and `100` when
every session in the nonempty filtered set has exactly one page view. -/
theorem claim7_bounce_rate :
    (∀ (store : List Visitor) (f : Visitor → Bool),
      0 < (store.filter (fun v => f v && !v.isBot)).length →
      bounceRate store f =
        round (fl64 (fl64 (((store.filter
            (fun v => f v && !v.isBot && v.totalPageViews == 1)).length : ℚ) /
          ((store.filter (fun v => f v && !v.isBot)).length : ℚ)) * 100))) ∧
    (∀ (store : List Visitor) (f : Visitor → Bool),
      store.filter (fun v => f v && !v.isBot) = [] →
      bounceRate store f = 0) ∧
    (∀ (store : List Visitor) (f : Visitor → Bool),
      store.filter (fun v => f v && !v.isBot) ≠ [] →
      (∀ v ∈ store, f v = true → v.isBot = false → v.totalPageViews = 1) →
      bounceRate store f = 100) := by
  refine ⟨?_, ?_, ?_⟩
  · intro store f hpos
    simp only [bounceRate]
    rw [if_pos hpos]
  · intro store f hempty
    simp [bounceRate, hempty]
  · intro store f hne hall
    have hcong : store.filter
        (fun v => f v && !v.isBot && v.totalPageViews == 1) =
        store.filter (fun v => f v && !v.isBot) := by
      apply List.filter_congr
      intro v hv
      rcases hf : f v with _ | _
      · simp [hf]
      · rcases hb : v.isBot with _ | _
        · simp [hf, hb, hall v hv hf hb]
        · simp [hf, hb]
    have hpos : 0 < (store.filter (fun v => f v && !v.isBot)).length :=
      List.length_pos.mpr hne
    simp only [bounceRate, hcong]
    rw [if_pos hpos]
    have htne : (((store.filter (fun v => f v && !v.isBot)).length : ℚ)) ≠ 0 := by
      have hlen : (store.filter (fun v => f v && !v.isBot)).length ≠ 0 := by
        omega
      exact_mod_cast hlen
    have hdiv : (((store.filter (fun v => f v && !v.isBot)).length : ℚ)) /
        (((store.filter (fun v => f v && !v.isBot)).length : ℚ)) = 1 :=
      div_self htne
    rw [hdiv, fl64_one, one_mul, fl64_hundred, round_eq, Int.floor_eq_iff]
    norm_num

/-- Witness for the amended C7 at concrete inputs: the empty store gives
`0`; a store with a single non-bot one-page-view session gives `100`. -/
theorem claim7_witness :
    bounceRate [] (fun _ => true) = 0 ∧
    bounceRate [demoSession] (fun _ => true) = 100 :=
  ⟨claim7_bounce_rate.2.1 [] (fun _ => true) rfl,
   claim7_bounce_rate.2.2 [demoSession] (fun _ => true) (by decide)
     (by decide)⟩

/-! ### The running-maximum characterisation of `maxScrollDepth` -/

/-- Specification-side recurrence for one call's effect on a session's
`maxScrollDepth` (`none` = the session does not exist).  A validated track
call creating the session starts the value at `0` — discarding any scroll
depth in the creating payload — and every later validated call addressed
to the session raises the value by `max` with the supplied scroll depth
(absent counting as `0`). -/
def specMaxStep (sid : String) (acc : Option Nat) : Op → Option Nat
  | .track _ p _ =>
      if p.sessionId == "" || p.visitorId == "" then acc
      else if p.sessionId == sid then
        match acc with
        | none => some 0
        | some m =>
            some (max m ((p.pageView.bind PageViewPayload.scrollDepth).getD 0))
      else acc
  | .heartbeat _ p =>
      if p.sessionId == "" then acc
      else if p.sessionId == sid then
        acc.map (fun m => max m (p.scrollDepth.getD 0))
      else acc
  | .endSession _ p =>
      if p.sessionId == "" then acc
      else if p.sessionId == sid then
        acc.map (fun m => max m (p.scrollDepth.getD 0))
      else acc

/-- The recurrence iterated over a call sequence from the empty store. -/
def specMax (sid : String) (ops : List Op) : Option Nat :=
  ops.foldl (specMaxStep sid) none

theorem specMaxStep_mono (sid : String) (m : Nat) (op : Op) :
    ∃ m2, specMaxStep sid (some m) op = some m2 ∧ m ≤ m2 := by
  cases op with
  | track now p ip =>
      simp only [specMaxStep]
      rcases h1 : p.sessionId == "" || p.visitorId == "" with _ | _
      · rcases h2 : p.sessionId == sid with _ | _
        · exact ⟨m, by simp [h1, h2], le_refl m⟩
        · exact ⟨max m ((p.pageView.bind PageViewPayload.scrollDepth).getD 0),
            by simp [h1, h2], Nat.le_max_left _ _⟩
      · exact ⟨m, by simp [h1], le_refl m⟩
  | heartbeat now p =>
      simp only [specMaxStep]
      rcases h1 : p.sessionId == "" with _ | _
      · rcases h2 : p.sessionId == sid with _ | _
        · exact ⟨m, by simp [h1, h2], le_refl m⟩
        · exact ⟨max m (p.scrollDepth.getD 0), by simp [h1, h2],
            Nat.le_max_left _ _⟩
      · exact ⟨m, by simp [h1], le_refl m⟩
  | endSession now p =>
      simp only [specMaxStep]
      rcases h1 : p.sessionId == "" with _ | _
      · rcases h2 : p.sessionId == sid with _ | _
        · exact ⟨m, by simp [h1, h2], le_refl m⟩
        · exact ⟨max m (p.scrollDepth.getD 0), by simp [h1, h2],
            Nat.le_max_left _ _⟩
      · exact ⟨m, by simp [h1], le_refl m⟩

theorem specMax_foldl_mono (sid : String) (l : List Op) (m : Nat) :
    ∃ m2, l.foldl (specMaxStep sid) (some m) = some m2 ∧ m ≤ m2 := by
  induction l generalizing m with
  | nil => exact ⟨m, rfl, le_refl m⟩
  | cons op rest ih =>
      rcases specMaxStep_mono sid m op with ⟨m1, h1, hle1⟩
      rcases ih m1 with ⟨m2, h2, hle2⟩
      exact ⟨m2, by simp only [List.foldl_cons, h1, h2],
        le_trans hle1 hle2⟩

/-- One call moves the observed `maxScrollDepth` of any session exactly as
the specification recurrence `specMaxStep` prescribes. -/
theorem applyOp_maxScroll (store : List Visitor) (op : Op) (sid : String) :
    (findSession (applyOp store op) sid).map Visitor.maxScrollDepth =
      specMaxStep sid ((findSession store sid).map Visitor.maxScrollDepth)
        op := by
  cases op with
  | track now p ip =>
      simp only [applyOp, track, specMaxStep]
      rcases hval : p.sessionId == "" || p.visitorId == "" with _ | _
      · rcases hf : findSession store p.sessionId with _ | v
        · simp only [hval, Bool.false_eq_true, if_false, hf]
          have hwsid : (presave now (newVisitorRecord now p ip
              (latestByVisitorId store p.visitorId))).sessionId =
              p.sessionId := by
            rw [(presave_frame _ _).1, (newVisitorRecord_base _ _ _ _).1]
          have hwmax : (presave now (newVisitorRecord now p ip
              (latestByVisitorId store p.visitorId))).maxScrollDepth = 0 := by
            rw [(presave_frame _ _).2.1, (newVisitorRecord_base _ _ _ _).2.1]
          rcases hsid : p.sessionId == sid with _ | _
          · have hws : ((presave now (newVisitorRecord now p ip
                (latestByVisitorId store p.visitorId))).sessionId == sid) =
                false := by rw [hwsid]; exact hsid
            rw [findSession_append]
            simp [hws, hsid]
          · have heq : p.sessionId = sid := beq_iff_eq.mp hsid
            have hnone : findSession store sid = none := heq ▸ hf
            have hws : ((presave now (newVisitorRecord now p ip
                (latestByVisitorId store p.visitorId))).sessionId == sid) =
                true := by rw [hwsid]; exact hsid
            rw [findSession_append, hnone]
            simp [hws, hsid, hnone, hwmax]
        · simp only [hval, Bool.false_eq_true, if_false, hf]
          have hvsid : v.sessionId = p.sessionId := findSession_some_sessionId hf
          have hwsid : (presave now (trackExisting now p v)).sessionId =
              p.sessionId := by
            rw [(presave_frame _ _).1, trackExisting_sessionId, hvsid]
          have hwmax : (presave now (trackExisting now p v)).maxScrollDepth =
              max v.maxScrollDepth
                ((p.pageView.bind PageViewPayload.scrollDepth).getD 0) := by
            rw [(presave_frame _ _).2.1, trackExisting_maxScrollDepth,
              bumpMax_eq_max]
          rcases hsid : p.sessionId == sid with _ | _
          · have hne : p.sessionId ≠ sid := fun hh => by simp [hh] at hsid
            rw [findSession_replaceFirst_ne hne hwsid]
            simp [hsid]
          · have heq : p.sessionId = sid := beq_iff_eq.mp hsid
            have hsome : findSession store sid = some v := heq ▸ hf
            have hrepl : replaceFirst store p.sessionId
                (presave now (trackExisting now p v)) =
                replaceFirst store sid (presave now (trackExisting now p v)) := by
              rw [heq]
            rw [hrepl, findSession_replaceFirst_self hsome
              (by rw [hwsid, heq]), hsome]
            simp [hsid, hwmax]
      · simp [hval]
  | heartbeat now p =>
      simp only [applyOp, heartbeat, specMaxStep]
      rcases hval : p.sessionId == "" with _ | _
      · rcases hf : findSession store p.sessionId with _ | v
        · simp only [hval, Bool.false_eq_true, if_false, hf]
          rcases hsid : p.sessionId == sid with _ | _
          · simp [hsid]
          · have heq : p.sessionId = sid := beq_iff_eq.mp hsid
            have hnone : findSession store sid = none := heq ▸ hf
            simp [hsid, hnone]
        · simp only [hval, Bool.false_eq_true, if_false, hf]
          have hvsid : v.sessionId = p.sessionId := findSession_some_sessionId hf
          have hwsid : (presave now (heartbeatUpdate now p v)).sessionId =
              p.sessionId := by
            rw [(presave_frame _ _).1, heartbeatUpdate_sessionId, hvsid]
          have hwmax : (presave now (heartbeatUpdate now p v)).maxScrollDepth =
              max v.maxScrollDepth (p.scrollDepth.getD 0) := by
            rw [(presave_frame _ _).2.1, heartbeatUpdate_maxScrollDepth,
              bumpMax_eq_max]
          rcases hsid : p.sessionId == sid with _ | _
          · have hne : p.sessionId ≠ sid := fun hh => by simp [hh] at hsid
            rw [findSession_replaceFirst_ne hne hwsid]
            simp [hsid]
          · have heq : p.sessionId = sid := beq_iff_eq.mp hsid
            have hsome : findSession store sid = some v := heq ▸ hf
            have hrepl : replaceFirst store p.sessionId
                (presave now (heartbeatUpdate now p v)) =
                replaceFirst store sid (presave now (heartbeatUpdate now p v)) := by
              rw [heq]
            rw [hrepl, findSession_replaceFirst_self hsome
              (by rw [hwsid, heq]), hsome]
            simp [hsid, hwmax]
      · simp [hval]
  | endSession now p =>
      simp only [applyOp, endSession, specMaxStep]
      rcases hval : p.sessionId == "" with _ | _
      · rcases hf : findSession store p.sessionId with _ | v
        · simp only [hval, Bool.false_eq_true, if_false, hf]
          rcases hsid : p.sessionId == sid with _ | _
          · simp [hsid]
          · have heq : p.sessionId = sid := beq_iff_eq.mp hsid
            have hnone : findSession store sid = none := heq ▸ hf
            simp [hsid, hnone]
        · simp only [hval, Bool.false_eq_true, if_false, hf]
          have hvsid : v.sessionId = p.sessionId := findSession_some_sessionId hf
          have hwsid : (presave now (endSessionUpdate now p v)).sessionId =
              p.sessionId := by
            rw [(presave_frame _ _).1, (endSessionUpdate_fields _ _ _).1, hvsid]
          have hwmax : (presave now (endSessionUpdate now p v)).maxScrollDepth =
              max v.maxScrollDepth (p.scrollDepth.getD 0) := by
            rw [(presave_frame _ _).2.1,
              (endSessionUpdate_fields _ _ _).2.2.2.2.1, bumpMax_eq_max]
          rcases hsid : p.sessionId == sid with _ | _
          · have hne : p.sessionId ≠ sid := fun hh => by simp [hh] at hsid
            rw [findSession_replaceFirst_ne hne hwsid]
            simp [hsid]
          · have heq : p.sessionId = sid := beq_iff_eq.mp hsid
            have hsome : findSession store sid = some v := heq ▸ hf
            have hrepl : replaceFirst store p.sessionId
                (presave now (endSessionUpdate now p v)) =
                replaceFirst store sid (presave now (endSessionUpdate now p v)) := by
              rw [heq]
            rw [hrepl, findSession_replaceFirst_self hsome
              (by rw [hwsid, heq]), hsome]
            simp [hsid, hwmax]
      · simp [hval]

/-- The characterisation iterated over any call sequence. -/
theorem runOps_maxScroll (ops : List Op) (store : List Visitor)
    (sid : String) :
    (findSession (runOps store ops) sid).map Visitor.maxScrollDepth =
      ops.foldl (specMaxStep sid)
        ((findSession store sid).map Visitor.maxScrollDepth) := by
  induction ops generalizing store with
  | nil => rfl
  | cons op rest ih =>
      simp only [runOps, List.foldl_cons]
      have : List.foldl applyOp (applyOp store op) rest =
          runOps (applyOp store op) rest := rfl
      rw [this, ih (applyOp store op), applyOp_maxScroll]

/-- A session-creating track call whose page view reports scroll depth
`40`. -/
def demoCreateOp : Op :=
  .track 0
    { sessionId := "s1", visitorId := "v1"
      pageView := some { url := "/home", scrollDepth := some 40 } } "ip"

/-- The record `demoCreateOp` creates in an empty store. -/
def demoCreated : Visitor :=
  presave 0 (newVisitorRecord 0
    { sessionId := "s1", visitorId := "v1"
      pageView := some { url := "/home", scrollDepth := some 40 } } "ip"
    none)

/-- A follow-up heartbeat on the same session reporting scroll depth 70. -/
def demoHbOp : Op :=
  .heartbeat 1000
    { sessionId := "s1", timeSpent := some 3, scrollDepth := some 70
      currentPage := some "/home" }

/-- Counterexample to C2 as stated: the session-creating track call
supplies scroll depth `40` (so the maximum of all values supplied so far
is `40`), yet after the call the session's `maxScrollDepth` is `0` — the
new-session branch never applies the supplied scroll depth. -/
theorem claim2_counterexample :
    (findSession (runOps [] [demoCreateOp]) "s1").map
        Visitor.maxScrollDepth = some 0 ∧
    ¬ (findSession (runOps [] [demoCreateOp]) "s1").map
        Visitor.maxScrollDepth = some 40 := by
  constructor
  · rfl
  · decide

/-- Claim C2 (amended): over any call sequence from the empty store, a
session's `maxScrollDepth` equals the `specMax` running maximum — `0` at
the session-creating track call (whose supplied scroll depth is
discarded), then raised by `max` with each scroll depth supplied by a
later validated call addressed to that session — and the value never
decreases when the sequence is extended. -/
theorem claim2_max_scroll_running_max :
    (∀ (ops : List Op) (sid : String),
      (findSession (runOps [] ops) sid).map Visitor.maxScrollDepth =
        specMax sid ops) ∧
    (∀ (ops more : List Op) (sid : String) (v : Visitor),
      findSession (runOps [] ops) sid = some v →
      ∃ w, findSession (runOps [] (ops ++ more)) sid = some w ∧
        v.maxScrollDepth ≤ w.maxScrollDepth) := by
  have hmain : ∀ (ops : List Op) (sid : String),
      (findSession (runOps [] ops) sid).map Visitor.maxScrollDepth =
        specMax sid ops := by
    intro ops sid
    rw [runOps_maxScroll]
    rfl
  refine ⟨hmain, ?_⟩
  intro ops more sid v hv
  have h1 : specMax sid ops = some v.maxScrollDepth := by
    rw [← hmain ops sid, hv]
    rfl
  have h2 : specMax sid (ops ++ more) =
      more.foldl (specMaxStep sid) (specMax sid ops) := by
    simp [specMax, List.foldl_append]
  rcases specMax_foldl_mono sid more v.maxScrollDepth with ⟨m2, hm2, hle⟩
  have h3 : specMax sid (ops ++ more) = some m2 := by
    rw [h2, h1, hm2]
  have h4 : (findSession (runOps [] (ops ++ more)) sid).map
      Visitor.maxScrollDepth = some m2 := by
    rw [hmain, h3]
  rcases Option.map_eq_some.mp h4 with ⟨w, hw, hwm⟩
  exact ⟨w, hw, hwm ▸ hle⟩

/-- Witness for the amended C2 at a concrete input: after the creating
call (`scrollDepth 40` discarded) and a heartbeat (`scrollDepth 70`),
the observed value matches `specMax` and has not decreased. -/
theorem claim2_witness :
    ((findSession (runOps [] [demoCreateOp, demoHbOp]) "s1").map
        Visitor.maxScrollDepth = specMax "s1" [demoCreateOp, demoHbOp]) ∧
    ∃ w, findSession (runOps [] ([demoCreateOp] ++ [demoHbOp])) "s1" =
        some w ∧ demoCreated.maxScrollDepth ≤ w.maxScrollDepth :=
  ⟨claim2_max_scroll_running_max.1 [demoCreateOp, demoHbOp] "s1",
   claim2_max_scroll_running_max.2 [demoCreateOp] [demoHbOp] "s1"
     demoCreated rfl⟩

end VisitorTracking
